import Mathlib

/-!
Thrift Go library: protocol decoration and service multiplexing.

A shallow embedding of `lib/go/thrift`:

* `protocol_decorator.go`    : `TProtocolDecorator`
* `multiplexed_protocol.go`  : `TMultiplexedProtocol`
* `multiplexed_processor.go` : `StoredMessageProtocol`, `TMultiplexedProcessor`

A Go interface value of type `TProtocol` is a method table.  It is embedded as a
function that takes a method call (`Op`: the method name with its arguments) and
the state of the world before the call, and returns the results of the call with
the state of the world after it.  A method of a decorator is one arm of a `match`
on the call.
-/

namespace Thrift

/-! ## Go values -/

/-- A Go `string`: a sequence of bytes (each byte a natural number below 256). -/
abbrev GoString := List Nat

/-- The bytes of an ASCII literal. -/
def ascii (s : String) : GoString := s.toList.map Char.toNat

/-- Go `type TMessageType int32`. -/
abbrev TMessageType := Int

/-- Go `type TType byte`. -/
abbrev TType := Nat

/-- A `float64`, by its bit pattern: the code here only passes such values on. -/
abbrev Float64 := Nat

/-- A `TTransport` interface value, by the identity of the object behind it. -/
abbrev TTransport := Nat

/-- Modelled from the spec: the `TMessageType` constants are declared in a file
that is not among the sources.  The spec lists the message types
`CALL, REPLY, EXCEPTION, ONEWAY`; they are numbered here in that order from 1.
No theorem below depends on the numbers. -/
def CALL : TMessageType := 1

/-- Modelled from the spec: see `CALL`. -/
def REPLY : TMessageType := 2

/-- Modelled from the spec: see `CALL`. -/
def EXCEPTION : TMessageType := 3

/-- Modelled from the spec: see `CALL`. -/
def ONEWAY : TMessageType := 4

/-- From `multiplexed_protocol.go`: `const SEPARATOR = ":"`. -/
def SEPARATOR : GoString := ascii ":"

/-- A non-nil Go `error` value.

* `errorf format` is the value of `fmt.Errorf(format)`, called with no operand: it
  keeps the format string it was built from;
* `transport typeId msg` is a `TTransportException`;
* `other id` is any other error value. -/
inductive GoError where
  | errorf (format : GoString)
  | transport (typeId : Int) (msg : GoString)
  | other (id : Nat)
deriving DecidableEq, Repr

/-- A Go `error`: `none` is `nil`. -/
abbrev error := Option GoError

/-- A Go `TException` (an interface that every `error` made here satisfies). -/
abbrev TException := Option GoError

/-! ## The `TProtocol` interface -/

/-- A call of a method of `TProtocol`: the method with its arguments. -/
inductive Op where
  | WriteMessageBegin (name : GoString) (typeId : TMessageType) (seqid : Int)
  | WriteMessageEnd
  | WriteStructBegin (name : GoString)
  | WriteStructEnd
  | WriteFieldBegin (name : GoString) (typeId : TType) (id : Int)
  | WriteFieldEnd
  | WriteFieldStop
  | WriteMapBegin (keyType : TType) (valueType : TType) (size : Int)
  | WriteMapEnd
  | WriteListBegin (elemType : TType) (size : Int)
  | WriteListEnd
  | WriteSetBegin (elemType : TType) (size : Int)
  | WriteSetEnd
  | WriteBool (value : Bool)
  | WriteByte (value : Nat)
  | WriteI16 (value : Int)
  | WriteI32 (value : Int)
  | WriteI64 (value : Int)
  | WriteDouble (value : Float64)
  | WriteString (value : GoString)
  | WriteBinary (value : List Nat)
  | ReadMessageBegin
  | ReadMessageEnd
  | ReadStructBegin
  | ReadStructEnd
  | ReadFieldBegin
  | ReadFieldEnd
  | ReadMapBegin
  | ReadMapEnd
  | ReadListBegin
  | ReadListEnd
  | ReadSetBegin
  | ReadSetEnd
  | ReadBool
  | ReadByte
  | ReadI16
  | ReadI32
  | ReadI64
  | ReadDouble
  | ReadString
  | ReadBinary
  | Skip (fieldType : TType)
  | Flush
  | Transport
deriving DecidableEq, Repr

/-- The result type of each method, as declared by the methods of
`TProtocolDecorator`. -/
@[reducible] def Op.Result : Op → Type
  | .ReadMessageBegin => GoString × TMessageType × Int × error
  | .ReadStructBegin => GoString × error
  | .ReadFieldBegin => GoString × TType × Int × error
  | .ReadMapBegin => TType × TType × Int × error
  | .ReadListBegin => TType × Int × error
  | .ReadSetBegin => TType × Int × error
  | .ReadBool => Bool × error
  | .ReadByte => Nat × error
  | .ReadI16 => Int × error
  | .ReadI32 => Int × error
  | .ReadI64 => Int × error
  | .ReadDouble => Float64 × error
  | .ReadString => GoString × error
  | .ReadBinary => List Nat × error
  | .Transport => TTransport
  | _ => error

/-- A `TProtocol` interface value over the world state `σ`: calling a method
gives its results and the next state. -/
abbrev TProtocol (σ : Type) := (op : Op) → σ → op.Result × σ

/-! ## protocol_decorator.go -/

/-- Go `type TProtocolDecorator struct { concreteProtocol TProtocol }`. -/
structure TProtocolDecorator (σ : Type) where
  concreteProtocol : TProtocol σ

/-- Go `NewTProtocolDecorator`. -/
def NewTProtocolDecorator {σ : Type} (concreteProtocol : TProtocol σ) : TProtocolDecorator σ :=
  { concreteProtocol := concreteProtocol }

/-- The methods of `*TProtocolDecorator`, one arm for each method of
`protocol_decorator.go`, in the order of the file. -/
def TProtocolDecorator.call {σ : Type} (p : TProtocolDecorator σ) : TProtocol σ
  | .WriteMessageBegin name typeId seqid => p.concreteProtocol (.WriteMessageBegin name typeId seqid)
  | .WriteMessageEnd => p.concreteProtocol .WriteMessageEnd
  | .WriteStructBegin name => p.concreteProtocol (.WriteStructBegin name)
  | .WriteStructEnd => p.concreteProtocol .WriteStructEnd
  | .WriteFieldBegin name typeId id => p.concreteProtocol (.WriteFieldBegin name typeId id)
  | .WriteFieldEnd => p.concreteProtocol .WriteFieldEnd
  | .WriteFieldStop => p.concreteProtocol .WriteFieldStop
  | .WriteMapBegin keyType valueType size => p.concreteProtocol (.WriteMapBegin keyType valueType size)
  | .WriteMapEnd => p.concreteProtocol .WriteMapEnd
  | .WriteListBegin elemType size => p.concreteProtocol (.WriteListBegin elemType size)
  | .WriteListEnd => p.concreteProtocol .WriteListEnd
  | .WriteSetBegin elemType size => p.concreteProtocol (.WriteSetBegin elemType size)
  | .WriteSetEnd => p.concreteProtocol .WriteSetEnd
  | .WriteBool value => p.concreteProtocol (.WriteBool value)
  | .WriteByte value => p.concreteProtocol (.WriteByte value)
  | .WriteI16 value => p.concreteProtocol (.WriteI16 value)
  | .WriteI32 value => p.concreteProtocol (.WriteI32 value)
  | .WriteI64 value => p.concreteProtocol (.WriteI64 value)
  | .WriteDouble value => p.concreteProtocol (.WriteDouble value)
  | .WriteString value => p.concreteProtocol (.WriteString value)
  | .WriteBinary value => p.concreteProtocol (.WriteBinary value)
  | .ReadMessageBegin => p.concreteProtocol .ReadMessageBegin
  | .ReadMessageEnd => p.concreteProtocol .ReadMessageEnd
  | .ReadStructBegin => p.concreteProtocol .ReadStructBegin
  | .ReadStructEnd => p.concreteProtocol .ReadStructEnd
  | .ReadFieldBegin => p.concreteProtocol .ReadFieldBegin
  | .ReadFieldEnd => p.concreteProtocol .ReadFieldEnd
  | .ReadMapBegin => p.concreteProtocol .ReadMapBegin
  | .ReadMapEnd => p.concreteProtocol .ReadMapEnd
  | .ReadListBegin => p.concreteProtocol .ReadListBegin
  | .ReadListEnd => p.concreteProtocol .ReadListEnd
  | .ReadSetBegin => p.concreteProtocol .ReadSetBegin
  | .ReadSetEnd => p.concreteProtocol .ReadSetEnd
  | .ReadBool => p.concreteProtocol .ReadBool
  | .ReadByte => p.concreteProtocol .ReadByte
  | .ReadI16 => p.concreteProtocol .ReadI16
  | .ReadI32 => p.concreteProtocol .ReadI32
  | .ReadI64 => p.concreteProtocol .ReadI64
  | .ReadDouble => p.concreteProtocol .ReadDouble
  | .ReadString => p.concreteProtocol .ReadString
  | .ReadBinary => p.concreteProtocol .ReadBinary
  | .Skip fieldType => p.concreteProtocol (.Skip fieldType)
  | .Flush => p.concreteProtocol .Flush
  | .Transport => p.concreteProtocol .Transport

/-! ## multiplexed_protocol.go -/

/-- Go `type TMultiplexedProtocol struct { TProtocolDecorator; serviceName string }`. -/
structure TMultiplexedProtocol (σ : Type) where
  toTProtocolDecorator : TProtocolDecorator σ
  serviceName : GoString

/-- Go `NewMultiplexedProtocol`. -/
def NewMultiplexedProtocol {σ : Type} (p : TProtocolDecorator σ) (serviceName : GoString) :
    TMultiplexedProtocol σ :=
  { toTProtocolDecorator := p, serviceName := serviceName }

/-- Go `(*TMultiplexedProtocol).WriteMessageBegin`. -/
def TMultiplexedProtocol.WriteMessageBegin {σ : Type} (p : TMultiplexedProtocol σ)
    (name : GoString) (typeId : TMessageType) (seqid : Int) (s : σ) : error × σ :=
  if typeId = CALL ∨ typeId = ONEWAY then
    p.toTProtocolDecorator.concreteProtocol
      (.WriteMessageBegin (p.serviceName ++ SEPARATOR ++ name) typeId seqid) s
  else
    p.toTProtocolDecorator.concreteProtocol (.WriteMessageBegin name typeId seqid) s

/-- The method set of `*TMultiplexedProtocol`: its own `WriteMessageBegin`, and
the methods promoted from the embedded `TProtocolDecorator`. -/
def TMultiplexedProtocol.call {σ : Type} (p : TMultiplexedProtocol σ) : TProtocol σ
  | .WriteMessageBegin name typeId seqid => p.WriteMessageBegin name typeId seqid
  | op => p.toTProtocolDecorator.call op

/-! ## Library functions and expressions of Go used by the processor -/

/-- The search of Go `strings.Index`: `i` is the index of the first byte of `s`. -/
def strings.indexFrom (substr : GoString) : GoString → Nat → Int
  | [], i => if substr = [] then (i : Int) else -1
  | c :: cs, i =>
    if substr.isPrefixOf (c :: cs) then (i : Int) else strings.indexFrom substr cs (i + 1)

/-- Go `strings.Index(s, substr)`: the index of the first instance of `substr`
in `s`, or `-1` if `substr` is not present in `s`. -/
def strings.Index (s substr : GoString) : Int :=
  strings.indexFrom substr s 0

/-- Go `len(s)`, of type `int`. -/
def len (s : GoString) : Int := (s.length : Int)

/-- The Go slice expression `s[:hi]`; `none` is the run-time panic for an index
out of range. -/
def sliceTo (s : GoString) (hi : Int) : Option GoString :=
  if 0 ≤ hi ∧ hi ≤ len s then some (s.take hi.toNat) else none

/-- The Go slice expression `s[lo:]`; `none` is the run-time panic for an index
out of range. -/
def sliceFrom (s : GoString) (lo : Int) : Option GoString :=
  if 0 ≤ lo ∧ lo ≤ len s then some (s.drop lo.toNat) else none

/-- Go `map[string]V`: `none` is the nil map; a map that was made gives for each
key the value stored under it, if any. -/
abbrev GoMap (V : Type) := Option (GoString → Option V)

/-- The Go index expression `v, ok := m[key]`: `none` stands for `ok == false`.
Reading a nil map finds nothing. -/
def GoMap.index {V : Type} (m : GoMap V) (key : GoString) : Option V :=
  match m with
  | none => none
  | some f => f key

/-- The byte `:`. -/
abbrev colon : Nat := 58

/-- Go `strings.Contains(s, substr)`: `Index(s, substr) >= 0`. -/
def strings.Contains (s substr : GoString) : Bool :=
  decide (strings.Index s substr ≥ 0)

/-- An ASCII letter. -/
def isLetter (c : Nat) : Bool :=
  (65 ≤ c && c ≤ 90) || (97 ≤ c && c ≤ 122)

/-- The scan of `fmt.Sprintf(format)` when the call has no operand, for the
formats in which every `%` is followed by `%` or by an ASCII letter: `%%` prints
`%`, and a verb `%v` (`v` a letter), for which there is no operand, prints
`%!v(MISSING)`.  `afterPercent` says that the byte before was the `%` that opens
a verb.  Formats with flags, a width, a precision, an argument index or a `%` at
the end are not described here: `none`. -/
def fmt.scan : Bool → GoString → Option GoString
  | false, [] => some []
  | true, [] => none
  | false, c :: rest =>
    if c = 37 then fmt.scan true rest
    else (fmt.scan false rest).map (fun printed => c :: printed)
  | true, v :: rest =>
    if v = 37 then (fmt.scan false rest).map (fun printed => 37 :: printed)
    else if isLetter v then
      (fmt.scan false rest).map
        (fun printed => ascii "%!" ++ [v] ++ ascii "(MISSING)" ++ printed)
    else none

/-- Go `fmt.Sprintf(format)` with no operand, on the formats of `fmt.scan`. -/
def fmt.Sprintf (format : GoString) : Option GoString :=
  fmt.scan false format

/-- The message `Error()` of an error made by `fmt.Errorf(format)`: the text
`fmt.Sprintf(format)`.  The messages of the other errors are not described. -/
def GoError.Error : GoError → Option GoString
  | .errorf format => fmt.Sprintf format
  | .transport _ _ => none
  | .other _ => none

/-! ## multiplexed_processor.go -/

/-- Go `type StoredMessageProtocol struct { TProtocolDecorator; name; typeId; seqid; err }`. -/
structure StoredMessageProtocol (σ : Type) where
  toTProtocolDecorator : TProtocolDecorator σ
  name : GoString
  typeId : TMessageType
  seqid : Int
  err : error

/-- Go `(*StoredMessageProtocol).ReadMessageBegin`. -/
def StoredMessageProtocol.ReadMessageBegin {σ : Type} (p : StoredMessageProtocol σ) (s : σ) :
    (GoString × TMessageType × Int × error) × σ :=
  ((p.name, p.typeId, p.seqid, p.err), s)

/-- The method set of `*StoredMessageProtocol`: its own `ReadMessageBegin`, and
the methods promoted from the embedded `TProtocolDecorator`. -/
def StoredMessageProtocol.call {σ : Type} (p : StoredMessageProtocol σ) : TProtocol σ
  | .ReadMessageBegin => p.ReadMessageBegin
  | op => p.toTProtocolDecorator.call op

/-- The result of a `Process` call with the state after it: `(bool, TException)`. -/
abbrev ProcessResult (σ : Type) := (Bool × TException) × σ

/-- A `TProcessor` interface value: its one method `Process(in, out TProtocol)`. -/
abbrev TProcessor (σ : Type) := TProtocol σ → TProtocol σ → σ → ProcessResult σ

/-- Go `type TMultiplexedProcessor struct { processors map[string]TProcessor }`. -/
structure TMultiplexedProcessor (σ : Type) where
  processors : GoMap (TProcessor σ)

/-- Go `(*TMultiplexedProcessor).Process`.  The outer `Option` is `none` when a
slice expression panics. -/
def TMultiplexedProcessor.Process {σ : Type} (p : TMultiplexedProcessor σ)
    (inp out : TProtocol σ) (s : σ) : Option (ProcessResult σ) :=
  match inp .ReadMessageBegin s with
  | ((name, typeId, seqid, err), s1) =>
    if err ≠ none then
      some ((false, err), s1)
    else if typeId ≠ CALL ∧ typeId ≠ ONEWAY then
      some ((false, some (.errorf (ascii "This should not have happened!?"))), s1)
    else
      let index := strings.Index name SEPARATOR
      if index < 0 ∨ index ≥ len name - 1 then
        some ((false, some (.errorf (
          ascii "Service name not found in message name: " ++ name ++ ascii ".  Did you " ++
            ascii "forget to use a TMultiplexProtocol in your client?"))), s1)
      else
        match sliceTo name index with
        | none => none
        | some serviceName =>
          match p.processors.index serviceName with
          | none =>
            some ((false, some (.errorf (
              ascii "Service name not found: " ++ serviceName ++ ascii ".  Did you forget " ++
                ascii "to call registerProcessor()?"))), s1)
          | some actualProcessor =>
            match sliceFrom name (index + 1) with
            | none => none
            | some standardName =>
              some (actualProcessor
                (StoredMessageProtocol.call
                  { toTProtocolDecorator := NewTProtocolDecorator inp,
                    name := standardName,
                    typeId := typeId,
                    seqid := seqid,
                    err := err })
                out s1)

/-! ## Instruments for stating what a caller does to a protocol -/

/-- The protocol `inner` with a log: every call made on it is appended to the
log, beside what `inner` does. -/
def recording {σ : Type} (inner : TProtocol σ) : TProtocol (σ × List Op) :=
  fun op s => ((inner op s.1).1, ((inner op s.1).2, s.2 ++ [op]))

/-- The zero value of each result type. -/
def Op.zero : (op : Op) → op.Result
  | .WriteMessageBegin _ _ _ => none
  | .WriteMessageEnd => none
  | .WriteStructBegin _ => none
  | .WriteStructEnd => none
  | .WriteFieldBegin _ _ _ => none
  | .WriteFieldEnd => none
  | .WriteFieldStop => none
  | .WriteMapBegin _ _ _ => none
  | .WriteMapEnd => none
  | .WriteListBegin _ _ => none
  | .WriteListEnd => none
  | .WriteSetBegin _ _ => none
  | .WriteSetEnd => none
  | .WriteBool _ => none
  | .WriteByte _ => none
  | .WriteI16 _ => none
  | .WriteI32 _ => none
  | .WriteI64 _ => none
  | .WriteDouble _ => none
  | .WriteString _ => none
  | .WriteBinary _ => none
  | .ReadMessageBegin => ([], 0, 0, none)
  | .ReadMessageEnd => none
  | .ReadStructBegin => ([], none)
  | .ReadStructEnd => none
  | .ReadFieldBegin => ([], 0, 0, none)
  | .ReadFieldEnd => none
  | .ReadMapBegin => (0, 0, 0, none)
  | .ReadMapEnd => none
  | .ReadListBegin => (0, 0, none)
  | .ReadListEnd => none
  | .ReadSetBegin => (0, 0, none)
  | .ReadSetEnd => none
  | .ReadBool => (false, none)
  | .ReadByte => (0, none)
  | .ReadI16 => (0, none)
  | .ReadI32 => (0, none)
  | .ReadI64 => (0, none)
  | .ReadDouble => (0, none)
  | .ReadString => ([], none)
  | .ReadBinary => ([], none)
  | .Skip _ => none
  | .Flush => none
  | .Transport => 0

/-- A protocol for examples.  Its state counts the calls made on it;
`ReadMessageBegin` yields the header `hdr`, every other method its zero value. -/
def headerProtocol (hdr : GoString × TMessageType × Int × error) : TProtocol Nat
  | .ReadMessageBegin => fun n => (hdr, n + 1)
  | op => fun n => (op.zero, n + 1)

/-- A handler for examples: it reads the header off its input protocol and
reports success exactly when the header is `(name, typeId, seqid, nil)`. -/
def expectingProcessor {σ : Type} (name : GoString) (typeId : TMessageType) (seqid : Int) :
    TProcessor σ :=
  fun inp _ s =>
    match inp .ReadMessageBegin s with
    | (hdr, s1) => ((decide (hdr = (name, typeId, seqid, none)), none), s1)

/-- A registry for examples, made with one entry. -/
def singleService {σ : Type} (serviceName : GoString) (processor : TProcessor σ) :
    TMultiplexedProcessor σ :=
  { processors := some (fun key => if key = serviceName then some processor else none) }

/-! ## The processor with its receiver and its registry -/

/-- Go `make(map[string]V)`: a map with no entry. -/
def GoMap.make {V : Type} : GoMap V := some (fun _ => none)

/-- The Go assignment `m[key] = value`; `none` is the run-time panic for an
assignment to an entry of a nil map. -/
def GoMap.assign {V : Type} (m : GoMap V) (key : GoString) (value : V) : Option (GoMap V) :=
  match m with
  | none => none
  | some f => some (some (fun k => if k = key then some value else f k))

/-- Go `(*TMultiplexedProcessor).RegisterProcessor`: the receiver after the call;
`none` is a panic. -/
def TMultiplexedProcessor.RegisterProcessor {σ : Type} (p : TMultiplexedProcessor σ)
    (serviceName : GoString) (processor : TProcessor σ) : Option (TMultiplexedProcessor σ) :=
  let p1 : TMultiplexedProcessor σ :=
    match p.processors with
    | none => { p with processors := GoMap.make }
    | some _ => p
  match p1.processors.assign serviceName processor with
  | none => none
  | some m => some { p1 with processors := m }

/-- Go `(*TMultiplexedProcessor).Process`, statement by statement as
`TMultiplexedProcessor.Process`, with the receiver as a part of the state: the
method has a pointer receiver, and each `return` is given with the receiver as it
is at that point. -/
def TMultiplexedProcessor.ProcessOn {σ : Type} (p : TMultiplexedProcessor σ)
    (inp out : TProtocol σ) (s : σ) : Option (TMultiplexedProcessor σ × ProcessResult σ) :=
  match inp .ReadMessageBegin s with
  | ((name, typeId, seqid, err), s1) =>
    if err ≠ none then
      some (p, (false, err), s1)
    else if typeId ≠ CALL ∧ typeId ≠ ONEWAY then
      some (p, (false, some (.errorf (ascii "This should not have happened!?"))), s1)
    else
      let index := strings.Index name SEPARATOR
      if index < 0 ∨ index ≥ len name - 1 then
        some (p, (false, some (.errorf (
          ascii "Service name not found in message name: " ++ name ++ ascii ".  Did you " ++
            ascii "forget to use a TMultiplexProtocol in your client?"))), s1)
      else
        match sliceTo name index with
        | none => none
        | some serviceName =>
          match p.processors.index serviceName with
          | none =>
            some (p, (false, some (.errorf (
              ascii "Service name not found: " ++ serviceName ++ ascii ".  Did you forget " ++
                ascii "to call registerProcessor()?"))), s1)
          | some actualProcessor =>
            match sliceFrom name (index + 1) with
            | none => none
            | some standardName =>
              some (p, actualProcessor
                (StoredMessageProtocol.call
                  { toTProtocolDecorator := NewTProtocolDecorator inp,
                    name := standardName,
                    typeId := typeId,
                    seqid := seqid,
                    err := err })
                out s1)

/-- The two protocols that `Process` is given. -/
inductive Port where
  | input
  | output
deriving DecidableEq, Repr

/-- The protocol `inner` with a log shared by several protocols: every call made
on it is appended to the log with the name `port`, beside what `inner` does. -/
def recordingOn {σ : Type} (port : Port) (inner : TProtocol σ) :
    TProtocol (σ × List (Port × Op)) :=
  fun op s => ((inner op s.1).1, ((inner op s.1).2, s.2 ++ [(port, op)]))

/-! ## http_client.go -/

/-- Modelled from the spec: the types of a `TTransportException` are constants
declared in a file that is not among the sources.  The spec names the conditions
"not open" and end of stream; the numbers are those of the order of declaration.
No theorem below depends on the numbers. -/
def UNKNOWN_TRANSPORT_EXCEPTION : Int := 0

/-- Modelled from the spec: see `UNKNOWN_TRANSPORT_EXCEPTION`. -/
def NOT_OPEN : Int := 1

/-- Modelled from the spec: see `UNKNOWN_TRANSPORT_EXCEPTION`. -/
def END_OF_FILE : Int := 4

/-- Modelled from the spec: `NewTTransportException(t, e)` is declared in a file
that is not among the sources.  It makes the transport error of type `t` with the
message `e` ("a transport error carrying the status code"). -/
def NewTTransportException (t : Int) (e : GoString) : error :=
  some (.transport t e)

/-- Go `http.StatusOK`. -/
def http.StatusOK : Int := 200

/-- Go `http.StatusForbidden`. -/
def http.StatusForbidden : Int := 403

/-- Go `strconv.Itoa`: the decimal text of an `int`. -/
def strconv.Itoa (i : Int) : GoString := ascii (toString i)

/-- Go `io.EOF`, an error value. -/
def io.EOF : GoError := .other 0

/-- An `*http.Client`, by the identity of the object. -/
abbrev HttpClient := Nat

/-- Go `http.DefaultClient`. -/
def http.DefaultClient : HttpClient := 0

/-- A `*url.URL`, by the text that its method `String()` returns. -/
structure URL where
  String : GoString
deriving DecidableEq, Repr

/-- An `*http.Response`, as far as the client reads it: the status code, the bytes
that reading the body yields, and the error that ends the reading (`nil` when the
body is read to its end). -/
structure Response where
  StatusCode : Int
  Body : GoString
  BodyErr : error
deriving DecidableEq, Repr

/-- The library and the network under the client, over the state `ω` of the
network.

* `Parse` is `url.Parse`.
* `Get client url` is `client.Get(url)`: an error or a response.
* `Post client url contentType body` is `client.Post(url, contentType, reader)` for
  a reader that holds the bytes `body`: an error or a response, with the bytes
  that the call left unread in the reader. -/
structure Net (ω : Type) where
  Parse : GoString → Except GoError URL
  Get : HttpClient → GoString → ω → Except GoError Response × ω
  Post : HttpClient → GoString → GoString → GoString → ω →
    (Except GoError Response × GoString) × ω

/-- Go `io.Copy(dst, response.Body)` into the buffer `dst`: the buffer after the
copy, and the error of the copy (`nil` when the body was read to its end). -/
def io.Copy (dst : GoString) (response : Response) : GoString × error :=
  (dst ++ response.Body, response.BodyErr)

/-- Go `(*bytes.Buffer).Read(buf)` for a `buf` of length `n`, on a buffer with the
unread bytes `b`: the results `(n, err)`, the bytes put into `buf`, and the bytes
left unread. -/
def bytes.Buffer.Read (b : GoString) (n : Nat) : (Int × error) × GoString × GoString :=
  if b = [] then
    if n = 0 then ((0, none), [], []) else ((0, some io.EOF), [], [])
  else
    ((len (b.take n), none), b.take n, b.drop n)

/-- Go `type THttpClient struct`.  A `*bytes.Buffer` is `none` when it is nil and
else holds its unread bytes. -/
structure THttpClient where
  url : Option URL
  client : Option HttpClient
  requestBuffer : Option GoString
  responseBuffer : Option GoString
  nsecConnectTimeout : Int
  nsecReadTimeout : Int
deriving DecidableEq, Repr

/-- Go `NewTHttpClientWithClient`: the `(TTransport, error)` it returns. -/
def NewTHttpClientWithClient {ω : Type} (net : Net ω) (urlstr : GoString)
    (client : Option HttpClient) (w : ω) : (Option THttpClient × error) × ω :=
  match net.Parse urlstr with
  | .error err => ((none, some err), w)
  | .ok parsedURL =>
    let client1 : HttpClient :=
      match client with
      | none => http.DefaultClient
      | some c => c
    match net.Get client1 urlstr w with
    | (.error err, w1) => ((none, some err), w1)
    | (.ok response, w1) =>
      if response.StatusCode ≠ http.StatusOK then
        ((none, NewTTransportException UNKNOWN_TRANSPORT_EXCEPTION
          (ascii "HTTP Response code: " ++ strconv.Itoa response.StatusCode)), w1)
      else
        match io.Copy [] response with
        | (_, some err) => ((none, some err), w1)
        | (responseBuffer, none) =>
          ((some { responseBuffer := some responseBuffer, url := some parsedURL,
                   client := some client1, requestBuffer := none,
                   nsecConnectTimeout := 0, nsecReadTimeout := 0 }, none), w1)

/-- Go `NewTHttpClient`. -/
def NewTHttpClient {ω : Type} (net : Net ω) (urlstr : GoString) (w : ω) :
    (Option THttpClient × error) × ω :=
  NewTHttpClientWithClient net urlstr none w

/-- Go `NewTHttpPostClientWithClient`: the `(TTransport, error)` it returns. -/
def NewTHttpPostClientWithClient {ω : Type} (net : Net ω) (urlstr : GoString)
    (client : Option HttpClient) : Option THttpClient × error :=
  match net.Parse urlstr with
  | .error err => (none, some err)
  | .ok parsedURL =>
    (some { url := some parsedURL, requestBuffer := some [], client := client,
            responseBuffer := none, nsecConnectTimeout := 0, nsecReadTimeout := 0 }, none)

/-- Go `NewTHttpPostClient`. -/
def NewTHttpPostClient {ω : Type} (net : Net ω) (urlstr : GoString) :
    Option THttpClient × error :=
  NewTHttpPostClientWithClient net urlstr none

/-- Go `(*THttpClient).Open`. -/
def THttpClient.Open (p : THttpClient) : error × THttpClient :=
  (none, p)

/-- Go `(*THttpClient).IsOpen`. -/
def THttpClient.IsOpen (p : THttpClient) : Bool :=
  p.responseBuffer ≠ none || p.requestBuffer ≠ none

/-- Go `(*THttpClient).Peek`. -/
def THttpClient.Peek (p : THttpClient) : Bool :=
  p.IsOpen

/-- Go `(*THttpClient).Close`. -/
def THttpClient.Close (p : THttpClient) : error × THttpClient :=
  (none, { p with responseBuffer := none })

/-- Go `(*THttpClient).Read(buf)` for a `buf` of length `n`: the results
`(n, err)`, the bytes put into `buf`, and the client after the call.
`fromError` is `NewTTransportExceptionFromError`, which is declared in a file that
is not among the sources. -/
def THttpClient.Read (fromError : error → error) (p : THttpClient) (n : Nat) :
    ((Int × error) × GoString) × THttpClient :=
  match p.responseBuffer with
  | none =>
    (((0, NewTTransportException NOT_OPEN (ascii "Response buffer is empty, no request.")),
      []), p)
  | some b =>
    match bytes.Buffer.Read b n with
    | ((k, err), data, rest) =>
      (((k, fromError err), data), { p with responseBuffer := some rest })

/-- Go `(*THttpClient).Write(buf)`; `none` is the run-time panic of a method of
`bytes.Buffer` called through a nil pointer. -/
def THttpClient.Write (p : THttpClient) (buf : GoString) :
    Option ((Int × error) × THttpClient) :=
  match p.requestBuffer with
  | none => none
  | some b => some ((len buf, none), { p with requestBuffer := some (b ++ buf) })

/-- Go `(*THttpClient).Flush`: the error it returns, the client and the network
after the call.  `none` is a run-time panic: `String()` called through a nil
`*url.URL`, or a nil `*bytes.Buffer` given to `Post` as the body.  `fromError` is
`NewTTransportExceptionFromError`, which is declared in a file that is not among
the sources.  Reading and closing the body of the response are seen by their
results only. -/
def THttpClient.Flush {ω : Type} (net : Net ω) (fromError : error → error)
    (p : THttpClient) (w : ω) : Option ((error × THttpClient) × ω) :=
  let client1 : HttpClient :=
    match p.client with
    | none => http.DefaultClient
    | some c => c
  let p1 : THttpClient := { p with client := some client1 }
  match p1.url with
  | none => none
  | some url =>
    match p1.requestBuffer with
    | none => none
    | some body =>
      match net.Post client1 url.String (ascii "application/x-thrift") body w with
      | ((.error err, rest), w1) =>
        some ((fromError (some err), { p1 with requestBuffer := some rest }), w1)
      | ((.ok response, rest), w1) =>
        if response.StatusCode ≠ http.StatusOK then
          some ((NewTTransportException UNKNOWN_TRANSPORT_EXCEPTION
            (ascii "HTTP Response code: " ++ strconv.Itoa response.StatusCode),
            { p1 with requestBuffer := some rest }), w1)
        else
          match io.Copy [] response with
          | (responseBuffer, err) =>
            some ((err, { p1 with requestBuffer := some rest,
                                  responseBuffer := some responseBuffer }), w1)

/-- A network for examples: every address parses, `Get` and `Post` are answered
with the response `response`, and `Post` reads the whole body.  The state counts
the exchanges. -/
def answering (response : Response) : Net Nat :=
  { Parse := fun urlstr => .ok { String := urlstr },
    Get := fun _ _ w => (.ok response, w + 1),
    Post := fun _ _ _ _ w => ((.ok response, []), w + 1) }

/-- `NewTTransportExceptionFromError` for examples: nil for nil, else a transport
error of unknown type. -/
def wrapUnknown : error → error
  | none => none
  | some _ => some (.transport UNKNOWN_TRANSPORT_EXCEPTION [])

/-! ## http_server.go -/

/-- A call on the `http.ResponseWriter` that `Handle` is given: `WriteHeader(code)`
or `Header().Add(key, value)`. -/
inductive WriterCall where
  | WriteHeader (statusCode : Int)
  | HeaderAdd (key value : GoString)
deriving DecidableEq, Repr

/-- An `http.ResponseWriter`, by the calls of `WriteHeader` and `Header().Add`
made on it so far.  The bytes that a processor writes through a transport are a
part of the state of the world. -/
abbrev ResponseWriter := List WriterCall

/-- An `*http.Request`, as far as `Handle` reads it: the method, what
`Header.Get(key)` returns for each key, and the body. -/
structure Request where
  Method : GoString
  HeaderGet : GoString → GoString
  Body : GoString

/-- Go `StreamTransport{Reader: req.Body, Writer: w}`. -/
structure StreamTransport where
  Reader : GoString
  Writer : ResponseWriter

/-- Go `type THttpServer struct`.  A factory is an interface value with one
method: `GetProcessor`, `GetTransport` or `GetProtocol`, over the state `σ` of the
world.  A `TTransport` that a factory returns is `none` when it is nil. -/
structure THttpServer (σ : Type) where
  addr : GoString
  cors : Bool
  certFile : GoString
  keyFile : GoString
  LastError : error
  processorFactory : StreamTransport → σ → TProcessor σ × σ
  inputTransportFactory : StreamTransport → σ → Option TTransport × σ
  outputTransportFactory : StreamTransport → σ → Option TTransport × σ
  inputProtocolFactory : Option TTransport → σ → TProtocol σ × σ
  outputProtocolFactory : Option TTransport → σ → TProtocol σ × σ

/-- Go `(*THttpServer).SetCorsEnabled`. -/
def THttpServer.SetCorsEnabled {σ : Type} (srv : THttpServer σ) (enabled : Bool) :
    THttpServer σ :=
  { srv with cors := enabled }

/-- A deferred `Close()` on a transport that is not nil. -/
def deferredClose {σ : Type} (Close : TTransport → σ → error × σ)
    (transport : Option TTransport) (s : σ) : σ :=
  match transport with
  | none => s
  | some t => (Close t s).2

/-- Go `(*THttpServer).Handle(w, req)`: the server and the response writer after
the call, and the state of the world.  `Close t` is the method `Close()` of the
transport `t`. -/
def THttpServer.Handle {σ : Type} (Close : TTransport → σ → error × σ)
    (srv : THttpServer σ) (w : ResponseWriter) (req : Request) (s : σ) :
    (THttpServer σ × ResponseWriter) × σ :=
  if req.Method = ascii "OPTIONS" then
    if ¬ srv.cors then
      ((srv, w ++ [.WriteHeader http.StatusForbidden]), s)
    else
      let w1 := w ++ [.HeaderAdd (ascii "Access-Control-Allow-Origin") (ascii "*")]
      let w2 := w1 ++ [.HeaderAdd (ascii "Access-Control-Allow-Methods") (ascii "POST")]
      let v := req.HeaderGet (ascii "Access-Control-Request-Headers")
      if v ≠ [] then
        ((srv, w2 ++ [.HeaderAdd (ascii "Access-Control-Allow-Headers") v]), s)
      else
        ((srv, w2), s)
  else
    let client : StreamTransport := { Reader := req.Body, Writer := w }
    match srv.processorFactory client s with
    | (processor, s1) =>
      match srv.inputTransportFactory client s1 with
      | (inputTransport, s2) =>
        match srv.outputTransportFactory client s2 with
        | (outputTransport, s3) =>
          match srv.inputProtocolFactory inputTransport s3 with
          | (inputProtocol, s4) =>
            match srv.outputProtocolFactory outputTransport s4 with
            | (outputProtocol, s5) =>
              match processor inputProtocol outputProtocol s5 with
              | ((_, err), s6) =>
                let srv1 : THttpServer σ := { srv with LastError := err }
                let srv2 : THttpServer σ :=
                  match srv1.LastError with
                  | some (.transport typeId _) =>
                    if typeId = END_OF_FILE then { srv1 with LastError := none } else srv1
                  | _ => srv1
                ((srv2, w),
                  deferredClose Close inputTransport (deferredClose Close outputTransport s6))

/-- A server for examples, over a state that counts the calls of its factories
and of its processor. -/
def countingServer (cors : Bool) : THttpServer Nat :=
  { addr := ascii "localhost:9090",
    cors := cors,
    certFile := [],
    keyFile := [],
    LastError := none,
    processorFactory := fun _ n => (fun _ _ k => ((true, none), k + 1), n + 1),
    inputTransportFactory := fun _ n => (some 1, n + 1),
    outputTransportFactory := fun _ n => (some 2, n + 1),
    inputProtocolFactory := fun _ n => (headerProtocol ([], 0, 0, none), n + 1),
    outputProtocolFactory := fun _ n => (headerProtocol ([], 0, 0, none), n + 1) }

/-- A request for examples: its method, and the value of the header
`Access-Control-Request-Headers`. -/
def requestWith (method requestHeaders : GoString) : Request :=
  { Method := method,
    HeaderGet := fun key =>
      if key = ascii "Access-Control-Request-Headers" then requestHeaders else [],
    Body := [] }

/-! ## Repeated reads of the stored header, and a server for examples -/

/-- Go `(*StoredMessageProtocol).ReadMessageBegin` with the receiver as a part of
the state: the method has a pointer receiver, and its one statement, the `return`,
assigns to no field. -/
def StoredMessageProtocol.ReadMessageBeginOn {σ : Type} (p : StoredMessageProtocol σ)
    (s : σ) : StoredMessageProtocol σ × (GoString × TMessageType × Int × error) × σ :=
  (p, (p.name, p.typeId, p.seqid, p.err), s)

/-- The calls `ReadMessageBegin()`, `n` times one after the other, on a
`StoredMessageProtocol`: what the calls return, in order, the receiver after the
last call and the state after the last call. -/
def readMessageBeginTimes {σ : Type} :
    Nat → StoredMessageProtocol σ → σ →
      List (GoString × TMessageType × Int × error) × StoredMessageProtocol σ × σ
  | 0, p, s => ([], p, s)
  | n + 1, p, s =>
    match p.ReadMessageBeginOn s with
    | (p1, header, s1) =>
      match readMessageBeginTimes n p1 s1 with
      | (headers, p2, s2) => (header :: headers, p2, s2)

/-- A server for examples: `LastError` holds `last` from an earlier request, and
the processor returns the error `err`. -/
def serverReturning (last err : error) : THttpServer Nat :=
  { addr := ascii "localhost:9090",
    cors := false,
    certFile := [],
    keyFile := [],
    LastError := last,
    processorFactory := fun _ n => (fun _ _ k => ((false, err), k + 1), n + 1),
    inputTransportFactory := fun _ n => (some 1, n + 1),
    outputTransportFactory := fun _ n => (some 2, n + 1),
    inputProtocolFactory := fun _ n => (headerProtocol ([], 0, 0, none), n + 1),
    outputProtocolFactory := fun _ n => (headerProtocol ([], 0, 0, none), n + 1) }

/-! ## Facts about the library functions -/

theorem SEPARATOR_eq : SEPARATOR = [58] := rfl

theorem indexFrom_sep_of_not_mem (s : GoString) (k : Nat) (h : 58 ∉ s) :
    strings.indexFrom [58] s k = -1 := by
  induction s generalizing k with
  | nil => simp [strings.indexFrom]
  | cons c cs ih =>
    have hc : (58 : Nat) ≠ c := fun e => h (by simp [e])
    have hcs : 58 ∉ cs := fun e => h (by simp [e])
    simp [strings.indexFrom, List.isPrefixOf, hc, ih _ hcs]

theorem indexFrom_sep_append (A rest : GoString) (k : Nat) (h : 58 ∉ A) :
    strings.indexFrom [58] (A ++ 58 :: rest) k = ((k + A.length : Nat) : Int) := by
  induction A generalizing k with
  | nil => simp [strings.indexFrom, List.isPrefixOf]
  | cons c cs ih =>
    have hc : (58 : Nat) ≠ c := fun e => h (by simp [e])
    have hcs : 58 ∉ cs := fun e => h (by simp [e])
    simp [strings.indexFrom, List.isPrefixOf, hc, ih _ hcs]
    omega

theorem Index_sep_of_not_mem (s : GoString) (h : 58 ∉ s) :
    strings.Index s SEPARATOR = -1 := by
  simp [strings.Index, SEPARATOR_eq, indexFrom_sep_of_not_mem s 0 h]

theorem Index_sep_append (A rest : GoString) (h : 58 ∉ A) :
    strings.Index (A ++ 58 :: rest) SEPARATOR = (A.length : Int) := by
  simp [strings.Index, SEPARATOR_eq, indexFrom_sep_append A rest 0 h]

/-- A name whose first `:` is at index `i` is the text before it, the `:`, and
the text after it. -/
theorem split_at_first (name : GoString) (i : Nat)
    (hfirst : ∀ j, j < i → name[j]? ≠ some 58) (hi : name[i]? = some 58) :
    name = name.take i ++ 58 :: name.drop (i + 1) ∧ 58 ∉ name.take i ∧
      (name.take i).length = i := by
  have hlt : i < name.length := by
    by_contra hge
    rw [List.getElem?_eq_none (by omega)] at hi
    exact absurd hi (by simp)
  have hget : name[i] = 58 := by
    rw [List.getElem?_eq_getElem hlt] at hi
    exact Option.some.inj hi
  refine ⟨?_, ?_, ?_⟩
  · conv_lhs => rw [← List.take_append_drop i name]
    rw [List.drop_eq_getElem_cons hlt, hget]
  · intro hmem
    obtain ⟨j, hj, hjeq⟩ := List.getElem_of_mem hmem
    have hji : j < i := by
      have := List.length_take_le i name
      omega
    apply hfirst j hji
    rw [List.getElem_take] at hjeq
    rw [List.getElem?_eq_getElem (by omega), hjeq]
  · simp [List.length_take]; omega

/-! ## The processor on a well-formed and on a malformed name -/

/-- What `Process` does with a header read without error, of type CALL or ONEWAY,
whose name is `A`, a `:`, and a non-empty `fn`, where `A` has no `:`. -/
theorem Process_split {σ : Type} (p : TMultiplexedProcessor σ) (inp out : TProtocol σ)
    (s s1 : σ) (A fn : GoString) (typeId : TMessageType) (seqid : Int)
    (hread : inp .ReadMessageBegin s = ((A ++ 58 :: fn, typeId, seqid, none), s1))
    (htype : typeId = CALL ∨ typeId = ONEWAY) (hA : 58 ∉ A) (hfn : fn ≠ []) :
    p.Process inp out s =
      match p.processors.index A with
      | none =>
        some ((false, some (.errorf (
          ascii "Service name not found: " ++ A ++ ascii ".  Did you forget " ++
            ascii "to call registerProcessor()?"))), s1)
      | some actualProcessor =>
        some (actualProcessor
          (StoredMessageProtocol.call
            { toTProtocolDecorator := NewTProtocolDecorator inp,
              name := fn, typeId := typeId, seqid := seqid, err := none })
          out s1) := by
  have hlen : 0 < fn.length := List.length_pos.mpr hfn
  have htype2 : ¬ (typeId ≠ CALL ∧ typeId ≠ ONEWAY) := by
    rcases htype with h | h <;> simp [h]
  have hguard : ¬ (strings.Index (A ++ 58 :: fn) SEPARATOR < 0 ∨
      strings.Index (A ++ 58 :: fn) SEPARATOR ≥ len (A ++ 58 :: fn) - 1) := by
    rw [Index_sep_append A fn hA]
    simp only [len, List.length_append, List.length_cons]
    push_cast
    omega
  have hto : sliceTo (A ++ 58 :: fn) (strings.Index (A ++ 58 :: fn) SEPARATOR) = some A := by
    rw [Index_sep_append A fn hA]
    simp [sliceTo, len]
    omega
  have hfrom : sliceFrom (A ++ 58 :: fn) (strings.Index (A ++ 58 :: fn) SEPARATOR + 1)
      = some fn := by
    rw [Index_sep_append A fn hA]
    have h1 : ((A.length : Int) + 1).toNat = A.length + 1 := by omega
    simp only [sliceFrom, len, List.length_append, List.length_cons, h1]
    have h2 : List.drop (A.length + 1) (A ++ 58 :: fn) = fn := by
      rw [List.drop_append]
      rfl
    rw [h2]
    simp
    omega
  unfold TMultiplexedProcessor.Process
  rw [hread]
  simp only [ne_eq, not_true_eq_false, if_false, htype2, hguard, hto, hfrom]

/-! ## Client side: `TMultiplexedProtocol` -/

/-- Claim C3: for a message of type CALL or ONEWAY, `WriteMessageBegin(F, typeId, seq)`
on a `TMultiplexedProtocol` with service name `S` is one call on the inner protocol,
`WriteMessageBegin(S + ":" + F, typeId, seq)`: it has the result and the effect of
that call, and on an inner protocol that logs its calls the log grows by that one
call, with `typeId` and `seq` as given. -/
theorem WriteMessageBegin_tags_call_and_oneway {σ : Type} (inner : TProtocol σ)
    (S F : GoString) (typeId : TMessageType) (seq : Int) (s : σ) (log : List Op)
    (htype : typeId = CALL ∨ typeId = ONEWAY) :
    (NewMultiplexedProtocol (NewTProtocolDecorator inner) S).call
        (.WriteMessageBegin F typeId seq) s
      = inner (.WriteMessageBegin (S ++ ascii ":" ++ F) typeId seq) s
    ∧ (NewMultiplexedProtocol (NewTProtocolDecorator (recording inner)) S).call
        (.WriteMessageBegin F typeId seq) (s, log)
      = ((inner (.WriteMessageBegin (S ++ ascii ":" ++ F) typeId seq) s).1,
         (inner (.WriteMessageBegin (S ++ ascii ":" ++ F) typeId seq) s).2,
         log ++ [.WriteMessageBegin (S ++ ascii ":" ++ F) typeId seq]) := by
  constructor <;>
    simp [TMultiplexedProtocol.call, TMultiplexedProtocol.WriteMessageBegin,
      NewMultiplexedProtocol, NewTProtocolDecorator, htype, recording, SEPARATOR]

theorem WriteMessageBegin_tags_call_and_oneway_witness :
    (ONEWAY = CALL ∨ ONEWAY = ONEWAY)
    ∧ ((NewMultiplexedProtocol (NewTProtocolDecorator (headerProtocol ([], 0, 0, none)))
          (ascii "Calculator")).call (.WriteMessageBegin (ascii "add") ONEWAY 7) 0
        = headerProtocol ([], 0, 0, none)
            (.WriteMessageBegin (ascii "Calculator" ++ ascii ":" ++ ascii "add") ONEWAY 7) 0
      ∧ (NewMultiplexedProtocol
            (NewTProtocolDecorator (recording (headerProtocol ([], 0, 0, none))))
            (ascii "Calculator")).call (.WriteMessageBegin (ascii "add") ONEWAY 7) (0, [])
        = ((headerProtocol ([], 0, 0, none)
              (.WriteMessageBegin (ascii "Calculator" ++ ascii ":" ++ ascii "add") ONEWAY 7) 0).1,
           (headerProtocol ([], 0, 0, none)
              (.WriteMessageBegin (ascii "Calculator" ++ ascii ":" ++ ascii "add") ONEWAY 7) 0).2,
           [] ++ [.WriteMessageBegin (ascii "Calculator" ++ ascii ":" ++ ascii "add") ONEWAY 7])) :=
  ⟨Or.inr rfl,
    WriteMessageBegin_tags_call_and_oneway (headerProtocol ([], 0, 0, none))
      (ascii "Calculator") (ascii "add") ONEWAY 7 0 [] (Or.inr rfl)⟩

/-- Claim C4: for a message type other than CALL and ONEWAY,
`WriteMessageBegin(F, typeId, seq)` on a `TMultiplexedProtocol` is one call on the
inner protocol, `WriteMessageBegin(F, typeId, seq)` with the name as given (no
service name before it): it has the result and the effect of that call, and on an
inner protocol that logs its calls the log grows by that one call. -/
theorem WriteMessageBegin_leaves_other_types {σ : Type} (inner : TProtocol σ)
    (S F : GoString) (typeId : TMessageType) (seq : Int) (s : σ) (log : List Op)
    (htype : typeId ≠ CALL ∧ typeId ≠ ONEWAY) :
    (NewMultiplexedProtocol (NewTProtocolDecorator inner) S).call
        (.WriteMessageBegin F typeId seq) s
      = inner (.WriteMessageBegin F typeId seq) s
    ∧ (NewMultiplexedProtocol (NewTProtocolDecorator (recording inner)) S).call
        (.WriteMessageBegin F typeId seq) (s, log)
      = ((inner (.WriteMessageBegin F typeId seq) s).1,
         (inner (.WriteMessageBegin F typeId seq) s).2,
         log ++ [.WriteMessageBegin F typeId seq]) := by
  constructor <;>
    simp [TMultiplexedProtocol.call, TMultiplexedProtocol.WriteMessageBegin,
      NewMultiplexedProtocol, NewTProtocolDecorator, htype.1, htype.2, recording]

theorem WriteMessageBegin_leaves_other_types_witness :
    (REPLY ≠ CALL ∧ REPLY ≠ ONEWAY)
    ∧ ((NewMultiplexedProtocol (NewTProtocolDecorator (headerProtocol ([], 0, 0, none)))
          (ascii "Calculator")).call (.WriteMessageBegin (ascii "add") REPLY 7) 0
        = headerProtocol ([], 0, 0, none) (.WriteMessageBegin (ascii "add") REPLY 7) 0
      ∧ (NewMultiplexedProtocol
            (NewTProtocolDecorator (recording (headerProtocol ([], 0, 0, none))))
            (ascii "Calculator")).call (.WriteMessageBegin (ascii "add") REPLY 7) (0, [])
        = ((headerProtocol ([], 0, 0, none) (.WriteMessageBegin (ascii "add") REPLY 7) 0).1,
           (headerProtocol ([], 0, 0, none) (.WriteMessageBegin (ascii "add") REPLY 7) 0).2,
           [] ++ [.WriteMessageBegin (ascii "add") REPLY 7])) :=
  ⟨by decide,
    WriteMessageBegin_leaves_other_types (headerProtocol ([], 0, 0, none))
      (ascii "Calculator") (ascii "add") REPLY 7 0 [] (by decide)⟩

/-! ## `StoredMessageProtocol` -/

theorem TProtocolDecorator.call_eq {σ : Type} (p : TProtocolDecorator σ) (op : Op) :
    p.call op = p.concreteProtocol op := by
  cases op <;> rfl

/-- Claim C10: `StoredMessageProtocol` overrides `ReadMessageBegin` and nothing else.
`ReadMessageBegin` returns the stored `(name, typeId, seqid, err)` and leaves the
state as it was: no method of the underlying protocol runs (on an underlying
protocol that logs its calls the log stays as it was).  Every other method, with
any arguments, has the result and the effect of the same call made on the
underlying protocol directly (there the log grows by exactly that call). -/
theorem StoredMessageProtocol_overrides_ReadMessageBegin_only {σ : Type}
    (inner : TProtocol σ) (name : GoString) (typeId : TMessageType) (seqid : Int)
    (err : error) :
    (∀ s : σ,
      (StoredMessageProtocol.mk (NewTProtocolDecorator inner) name typeId seqid err).call
          .ReadMessageBegin s
        = ((name, typeId, seqid, err), s))
    ∧ (∀ (s : σ) (log : List Op),
      (StoredMessageProtocol.mk (NewTProtocolDecorator (recording inner))
          name typeId seqid err).call .ReadMessageBegin (s, log)
        = ((name, typeId, seqid, err), (s, log)))
    ∧ (∀ op : Op, op ≠ .ReadMessageBegin → ∀ s : σ,
      (StoredMessageProtocol.mk (NewTProtocolDecorator inner) name typeId seqid err).call op s
        = inner op s)
    ∧ (∀ op : Op, op ≠ .ReadMessageBegin → ∀ (s : σ) (log : List Op),
      (StoredMessageProtocol.mk (NewTProtocolDecorator (recording inner))
          name typeId seqid err).call op (s, log)
        = ((inner op s).1, (inner op s).2, log ++ [op])) := by
  refine ⟨fun s => rfl, fun s log => rfl, ?_, ?_⟩
  · intro op hop s
    cases op <;> first | exact absurd rfl hop | rfl
  · intro op hop s log
    cases op <;> first | exact absurd rfl hop | rfl

theorem StoredMessageProtocol_overrides_ReadMessageBegin_only_witness :
    Op.ReadI32 ≠ Op.ReadMessageBegin
    ∧ (StoredMessageProtocol.mk
          (NewTProtocolDecorator (recording (headerProtocol (ascii "S:f", CALL, 1, none))))
          (ascii "f") CALL 1 none).call .ReadI32 (0, [])
        = ((headerProtocol (ascii "S:f", CALL, 1, none) .ReadI32 0).1,
           (headerProtocol (ascii "S:f", CALL, 1, none) .ReadI32 0).2,
           [] ++ [Op.ReadI32]) :=
  ⟨by decide,
    (StoredMessageProtocol_overrides_ReadMessageBegin_only
      (headerProtocol (ascii "S:f", CALL, 1, none)) (ascii "f") CALL 1 none).2.2.2
      .ReadI32 (by decide) 0 []⟩

/-! ## Server side: `TMultiplexedProcessor.Process` -/

/-- What `Process` does with a header read without error, of type CALL or ONEWAY,
whose name passes for malformed. -/
theorem Process_malformed {σ : Type} (p : TMultiplexedProcessor σ) (inp out : TProtocol σ)
    (s s1 : σ) (name : GoString) (typeId : TMessageType) (seqid : Int)
    (hread : inp .ReadMessageBegin s = ((name, typeId, seqid, none), s1))
    (htype : typeId = CALL ∨ typeId = ONEWAY)
    (hguard : strings.Index name SEPARATOR < 0 ∨
      strings.Index name SEPARATOR ≥ len name - 1) :
    p.Process inp out s =
      some ((false, some (.errorf (
        ascii "Service name not found in message name: " ++ name ++ ascii ".  Did you " ++
          ascii "forget to use a TMultiplexProtocol in your client?"))), s1) := by
  have htype2 : ¬ (typeId ≠ CALL ∧ typeId ≠ ONEWAY) := by
    rcases htype with h | h <;> simp [h]
  unfold TMultiplexedProcessor.Process
  rw [hread]
  simp only [ne_eq, not_true_eq_false, if_false, htype2, hguard, if_true]

theorem Process_read_failed {σ : Type} (p : TMultiplexedProcessor σ) (inp out : TProtocol σ)
    (s s1 : σ) (name : GoString) (typeId : TMessageType) (seqid : Int) (e : GoError)
    (hread : inp .ReadMessageBegin s = ((name, typeId, seqid, some e), s1)) :
    p.Process inp out s = some ((false, some e), s1) := by
  unfold TMultiplexedProcessor.Process
  rw [hread]
  simp

theorem Process_wrong_type {σ : Type} (p : TMultiplexedProcessor σ) (inp out : TProtocol σ)
    (s s1 : σ) (name : GoString) (typeId : TMessageType) (seqid : Int)
    (hread : inp .ReadMessageBegin s = ((name, typeId, seqid, none), s1))
    (htype : typeId ≠ CALL ∧ typeId ≠ ONEWAY) :
    p.Process inp out s =
      some ((false, some (.errorf (ascii "This should not have happened!?"))), s1) := by
  unfold TMultiplexedProcessor.Process
  rw [hread]
  simp [htype.1, htype.2]

/-- Claim C8: when `ReadMessageBegin` on the input protocol returns a non-nil
error `e`, `Process` returns `(false, e)` with that same error, in the state in
which the read left the world: this holds for every registry and every output
protocol and whatever name, type and sequence id came with the error, so nothing
found in the registry is used and no handler runs. -/
theorem Process_returns_read_error {σ : Type} (p : TMultiplexedProcessor σ)
    (inp out : TProtocol σ) (s s1 : σ) (name : GoString) (typeId : TMessageType)
    (seqid : Int) (e : GoError)
    (hread : inp .ReadMessageBegin s = ((name, typeId, seqid, some e), s1)) :
    p.Process inp out s = some ((false, some e), s1) :=
  Process_read_failed p inp out s s1 name typeId seqid e hread

theorem Process_returns_read_error_witness :
    headerProtocol (ascii "S:f", CALL, 1, some (.other 3)) .ReadMessageBegin 0
        = ((ascii "S:f", CALL, 1, some (.other 3)), 1)
    ∧ (singleService (ascii "S") (expectingProcessor (ascii "f") CALL 1)).Process
          (headerProtocol (ascii "S:f", CALL, 1, some (.other 3)))
          (headerProtocol ([], 0, 0, none)) 0
        = some ((false, some (.other 3)), 1) :=
  ⟨rfl,
    Process_returns_read_error _ _ _ 0 1 (ascii "S:f") CALL 1 (.other 3) rfl⟩

/-- Claim C7: for a header whose type is neither CALL nor ONEWAY, `Process` returns
`(false, e)` with a non-nil error `e`, in the state in which the read of the
header left the world.  The error and the state are the same for every registry
and every output protocol, whatever the name (a well-formed name with a
registered service name too): no handler runs. -/
theorem Process_rejects_other_types {σ : Type} (inp : TProtocol σ) (s s1 : σ)
    (name : GoString) (typeId : TMessageType) (seqid : Int) (err : error)
    (hread : inp .ReadMessageBegin s = ((name, typeId, seqid, err), s1))
    (htype : typeId ≠ CALL ∧ typeId ≠ ONEWAY) :
    ∃ e : GoError, ∀ (p : TMultiplexedProcessor σ) (out : TProtocol σ),
      p.Process inp out s = some ((false, some e), s1) := by
  cases err with
  | some e => exact ⟨e, fun p out => Process_read_failed p inp out s s1 name typeId seqid e hread⟩
  | none =>
    exact ⟨_, fun p out => Process_wrong_type p inp out s s1 name typeId seqid hread htype⟩

theorem Process_rejects_other_types_witness :
    headerProtocol (ascii "S:f", REPLY, 1, none) .ReadMessageBegin 0
        = ((ascii "S:f", REPLY, 1, none), 1)
    ∧ (REPLY ≠ CALL ∧ REPLY ≠ ONEWAY)
    ∧ ∃ e : GoError, ∀ (p : TMultiplexedProcessor Nat) (out : TProtocol Nat),
        p.Process (headerProtocol (ascii "S:f", REPLY, 1, none)) out 0
          = some ((false, some e), 1) :=
  ⟨rfl, by decide,
    Process_rejects_other_types (headerProtocol (ascii "S:f", REPLY, 1, none)) 0 1
      (ascii "S:f") REPLY 1 none rfl (by decide)⟩

/-- Claim C5: for a header of type CALL or ONEWAY whose name has no `:`, or whose
first `:` is its last byte, `Process` returns `(false, e)` with a non-nil error
`e`, in the state in which the read of the header left the world.  The error and
the state are the same for every registry and every output protocol: no
registered handler runs. -/
theorem Process_rejects_untagged_name {σ : Type} (inp : TProtocol σ) (s s1 : σ)
    (name : GoString) (typeId : TMessageType) (seqid : Int) (err : error)
    (hread : inp .ReadMessageBegin s = ((name, typeId, seqid, err), s1))
    (htype : typeId = CALL ∨ typeId = ONEWAY)
    (hname : colon ∉ name ∨ ∃ A : GoString, colon ∉ A ∧ name = A ++ [colon]) :
    ∃ e : GoError, ∀ (p : TMultiplexedProcessor σ) (out : TProtocol σ),
      p.Process inp out s = some ((false, some e), s1) := by
  cases err with
  | some e => exact ⟨e, fun p out => Process_read_failed p inp out s s1 name typeId seqid e hread⟩
  | none =>
    refine ⟨_, fun p out => Process_malformed p inp out s s1 name typeId seqid hread htype ?_⟩
    rcases hname with h | ⟨A, hA, rfl⟩
    · left
      rw [Index_sep_of_not_mem name h]
      decide
    · right
      rw [Index_sep_append A [] hA]
      simp [len]

theorem Process_rejects_untagged_name_witness :
    headerProtocol (ascii "add", CALL, 1, none) .ReadMessageBegin 0
        = ((ascii "add", CALL, 1, none), 1)
    ∧ (CALL = CALL ∨ CALL = ONEWAY)
    ∧ (colon ∉ ascii "add" ∨ ∃ A : GoString, colon ∉ A ∧ ascii "add" = A ++ [colon])
    ∧ ∃ e : GoError, ∀ (p : TMultiplexedProcessor Nat) (out : TProtocol Nat),
        p.Process (headerProtocol (ascii "add", CALL, 1, none)) out 0
          = some ((false, some e), 1) :=
  ⟨rfl, Or.inl rfl, Or.inl (by decide),
    Process_rejects_untagged_name (headerProtocol (ascii "add", CALL, 1, none)) 0 1
      (ascii "add") CALL 1 none rfl (Or.inl rfl) (Or.inl (by decide))⟩

/-- Claim C2: when the header `(name, typeId, seqid)` is read without error, the
type is CALL or ONEWAY, the first `:` of `name` is at an index `i` with
`i < len(name) - 1`, and `name[:i]` is registered to the processor `P`, then
`Process` is one run of `P.Process`, started in the state in which the read of the
header left the world: `P` is given an input protocol whose `ReadMessageBegin`
returns `(name[i+1:], typeId, seqid, nil)` and the output protocol as it was
passed, and what `P` returns is returned as it is. -/
theorem Process_dispatches_to_registered {σ : Type} (p : TMultiplexedProcessor σ)
    (inp out : TProtocol σ) (s s1 : σ) (name : GoString) (typeId : TMessageType)
    (seqid : Int) (i : Nat) (P : TProcessor σ)
    (hread : inp .ReadMessageBegin s = ((name, typeId, seqid, none), s1))
    (htype : typeId = CALL ∨ typeId = ONEWAY)
    (hfirst : ∀ j, j < i → name[j]? ≠ some colon)
    (hi : name[i]? = some colon)
    (hlast : (i : Int) < len name - 1)
    (hreg : p.processors.index (name.take i) = some P) :
    p.Process inp out s =
      some (P
        (StoredMessageProtocol.mk (NewTProtocolDecorator inp)
          (name.drop (i + 1)) typeId seqid none).call
        out s1)
    ∧ ∀ s2 : σ,
      (StoredMessageProtocol.mk (NewTProtocolDecorator inp)
          (name.drop (i + 1)) typeId seqid none).call .ReadMessageBegin s2
        = ((name.drop (i + 1), typeId, seqid, none), s2) := by
  refine ⟨?_, fun s2 => rfl⟩
  obtain ⟨hsplit, hA, _⟩ := split_at_first name i hfirst hi
  have hfn : name.drop (i + 1) ≠ [] := by
    intro h
    have h1 := congrArg List.length h
    simp only [List.length_drop, List.length_nil] at h1
    simp only [len] at hlast
    omega
  rw [hsplit] at hread
  rw [Process_split p inp out s s1 (name.take i) (name.drop (i + 1)) typeId seqid
    hread htype hA hfn, hreg]

theorem Process_dispatches_to_registered_witness :
    headerProtocol (ascii "Calculator:add", CALL, 1, none) .ReadMessageBegin 0
        = ((ascii "Calculator:add", CALL, 1, none), 1)
    ∧ (CALL = CALL ∨ CALL = ONEWAY)
    ∧ (∀ j, j < 10 → (ascii "Calculator:add")[j]? ≠ some colon)
    ∧ (ascii "Calculator:add")[10]? = some colon
    ∧ ((10 : Nat) : Int) < len (ascii "Calculator:add") - 1
    ∧ (singleService (ascii "Calculator")
          (expectingProcessor (ascii "add") CALL 1 : TProcessor Nat)).processors.index
            ((ascii "Calculator:add").take 10)
        = some (expectingProcessor (ascii "add") CALL 1)
    ∧ ((singleService (ascii "Calculator") (expectingProcessor (ascii "add") CALL 1)).Process
          (headerProtocol (ascii "Calculator:add", CALL, 1, none))
          (headerProtocol ([], 0, 0, none)) 0
        = some (expectingProcessor (ascii "add") CALL 1
            (StoredMessageProtocol.mk
              (NewTProtocolDecorator (headerProtocol (ascii "Calculator:add", CALL, 1, none)))
              ((ascii "Calculator:add").drop (10 + 1)) CALL 1 none).call
            (headerProtocol ([], 0, 0, none)) 1)
      ∧ ∀ s2 : Nat,
        (StoredMessageProtocol.mk
            (NewTProtocolDecorator (headerProtocol (ascii "Calculator:add", CALL, 1, none)))
            ((ascii "Calculator:add").drop (10 + 1)) CALL 1 none).call .ReadMessageBegin s2
          = (((ascii "Calculator:add").drop (10 + 1), CALL, 1, none), s2)) :=
  ⟨rfl, Or.inl rfl, by decide, by decide, by decide, rfl,
    Process_dispatches_to_registered
      (singleService (ascii "Calculator") (expectingProcessor (ascii "add") CALL 1))
      (headerProtocol (ascii "Calculator:add", CALL, 1, none))
      (headerProtocol ([], 0, 0, none)) 0 1 (ascii "Calculator:add") CALL 1 10
      (expectingProcessor (ascii "add") CALL 1)
      rfl (Or.inl rfl) (by decide) (by decide) (by decide) rfl⟩

/-- Claim C9: when the name has more than one `:`, `Process` splits it at the first
one only.  For a name `A`, `:`, `rest`, where `A` has no `:` and `rest` has one,
read without error in a header of type CALL or ONEWAY: the service name looked up
in the registry is `A`; when `A` is registered the handler is given the function
name `rest`, whole, its `:` included; when `A` is not registered `Process` fails
with the error that names `A`. -/
theorem Process_splits_at_first_separator {σ : Type} (p : TMultiplexedProcessor σ)
    (inp out : TProtocol σ) (s s1 : σ) (A rest : GoString) (typeId : TMessageType)
    (seqid : Int)
    (hread : inp .ReadMessageBegin s = ((A ++ ascii ":" ++ rest, typeId, seqid, none), s1))
    (htype : typeId = CALL ∨ typeId = ONEWAY)
    (hA : colon ∉ A) (hrest : colon ∈ rest) :
    p.Process inp out s =
      match p.processors.index A with
      | none =>
        some ((false, some (.errorf (
          ascii "Service name not found: " ++ A ++ ascii ".  Did you forget " ++
            ascii "to call registerProcessor()?"))), s1)
      | some actualProcessor =>
        some (actualProcessor
          (StoredMessageProtocol.mk (NewTProtocolDecorator inp) rest typeId seqid none).call
          out s1) := by
  have hne : rest ≠ [] := by
    intro h
    rw [h] at hrest
    exact absurd hrest (by simp)
  have hname : A ++ ascii ":" ++ rest = A ++ 58 :: rest := by
    simp [ascii]
  rw [hname] at hread
  exact Process_split p inp out s s1 A rest typeId seqid hread htype hA hne

theorem Process_splits_at_first_separator_witness :
    headerProtocol (ascii "A" ++ ascii ":" ++ ascii "b:c", CALL, 1, none) .ReadMessageBegin 0
        = ((ascii "A" ++ ascii ":" ++ ascii "b:c", CALL, 1, none), 1)
    ∧ (CALL = CALL ∨ CALL = ONEWAY)
    ∧ colon ∉ ascii "A"
    ∧ colon ∈ ascii "b:c"
    ∧ ascii "A" ++ ascii ":" ++ ascii "b:c" = ascii "A:b:c"
    ∧ (singleService (ascii "A") (expectingProcessor (ascii "b:c") CALL 1)).Process
          (headerProtocol (ascii "A" ++ ascii ":" ++ ascii "b:c", CALL, 1, none))
          (headerProtocol ([], 0, 0, none)) 0
        = (match (singleService (ascii "A")
              (expectingProcessor (ascii "b:c") CALL 1)).processors.index (ascii "A") with
          | none =>
            some ((false, some (.errorf (
              ascii "Service name not found: " ++ ascii "A" ++ ascii ".  Did you forget " ++
                ascii "to call registerProcessor()?"))), 1)
          | some actualProcessor =>
            some (actualProcessor
              (StoredMessageProtocol.mk
                (NewTProtocolDecorator
                  (headerProtocol (ascii "A" ++ ascii ":" ++ ascii "b:c", CALL, 1, none)))
                (ascii "b:c") CALL 1 none).call
              (headerProtocol ([], 0, 0, none)) 1)) :=
  ⟨rfl, Or.inl rfl, by decide, by decide, by decide,
    Process_splits_at_first_separator
      (singleService (ascii "A") (expectingProcessor (ascii "b:c") CALL 1))
      (headerProtocol (ascii "A" ++ ascii ":" ++ ascii "b:c", CALL, 1, none))
      (headerProtocol ([], 0, 0, none)) 0 1 (ascii "A") (ascii "b:c") CALL 1
      rfl (Or.inl rfl) (by decide) (by decide)⟩

/-! ## Round trip: a call tagged by the client, routed by the server -/

/-- Claim C1, as stated, fails for the empty function name.  The client with service
name `Calculator` (no `:` in it) writes the call `("", CALL, 1)`: the header handed
to the inner protocol is `("Calculator:", CALL, 1)`.  The server reads that header
without error, and `Calculator` is registered to a handler.  `Process` does not run
the handler: it returns `(false, e)` with the error for a name in which no service
name was found, in the state in which the read left the world. -/
theorem roundtrip_fails_for_empty_function_name :
    colon ∉ ascii "Calculator"
    ∧ ((NewMultiplexedProtocol
          (NewTProtocolDecorator (recording (headerProtocol ([], 0, 0, none))))
          (ascii "Calculator")).call (.WriteMessageBegin [] CALL 1) (0, [])).2.2
        = [.WriteMessageBegin (ascii "Calculator:") CALL 1]
    ∧ headerProtocol (ascii "Calculator:", CALL, 1, none) .ReadMessageBegin 0
        = ((ascii "Calculator:", CALL, 1, none), 1)
    ∧ (singleService (ascii "Calculator")
          (expectingProcessor [] CALL 1 : TProcessor Nat)).processors.index (ascii "Calculator")
        = some (expectingProcessor [] CALL 1)
    ∧ (singleService (ascii "Calculator") (expectingProcessor [] CALL 1)).Process
          (headerProtocol (ascii "Calculator:", CALL, 1, none))
          (headerProtocol ([], 0, 0, none)) 0
        ≠ some (expectingProcessor [] CALL 1
            (StoredMessageProtocol.mk
              (NewTProtocolDecorator (headerProtocol (ascii "Calculator:", CALL, 1, none)))
              [] CALL 1 none).call
            (headerProtocol ([], 0, 0, none)) 1)
    ∧ (singleService (ascii "Calculator") (expectingProcessor [] CALL 1)).Process
          (headerProtocol (ascii "Calculator:", CALL, 1, none))
          (headerProtocol ([], 0, 0, none)) 0
        = some ((false, some (.errorf (ascii
            "Service name not found in message name: Calculator:.  Did you forget to use a TMultiplexProtocol in your client?"))),
          1) := by
  refine ⟨by decide, by decide, rfl, rfl, by decide, by decide⟩

/-- Claim C1, amended: round trip for a non-empty function name.  Let `S` be a
service name without `:`, `F` a non-empty function name and `seq` a sequence id.
The client calls `WriteMessageBegin(F, CALL, seq)` on a `TMultiplexedProtocol` with
service name `S`; the header this hands to the inner protocol is the header that
`ReadMessageBegin` on the input protocol yields, without error, in `Process` on a
processor in which `S` is registered to the handler `P`.  Then `Process` is one run
of `P`, and `ReadMessageBegin` on the input protocol that `P` is given returns
`(F, CALL, seq)` with no error. -/
theorem roundtrip_tagged_call {σ τ : Type} (client : TProtocol τ) (c : τ)
    (p : TMultiplexedProcessor σ) (inp out : TProtocol σ) (s s1 : σ)
    (S F : GoString) (seq : Int) (name : GoString) (typeId : TMessageType) (seqid : Int)
    (P : TProcessor σ)
    (hS : colon ∉ S) (hF : F ≠ [])
    (hsent : ((NewMultiplexedProtocol (NewTProtocolDecorator (recording client)) S).call
        (.WriteMessageBegin F CALL seq) (c, [])).2.2 = [.WriteMessageBegin name typeId seqid])
    (hread : inp .ReadMessageBegin s = ((name, typeId, seqid, none), s1))
    (hreg : p.processors.index S = some P) :
    p.Process inp out s =
      some (P
        (StoredMessageProtocol.mk (NewTProtocolDecorator inp) F CALL seq none).call out s1)
    ∧ ∀ s2 : σ,
      (StoredMessageProtocol.mk (NewTProtocolDecorator inp) F CALL seq none).call
          .ReadMessageBegin s2
        = ((F, CALL, seq, none), s2) := by
  refine ⟨?_, fun s2 => rfl⟩
  have hlog : ((NewMultiplexedProtocol (NewTProtocolDecorator (recording client)) S).call
      (.WriteMessageBegin F CALL seq) (c, [])).2.2
        = [.WriteMessageBegin (S ++ 58 :: F) CALL seq] := by
    simp [TMultiplexedProtocol.call, TMultiplexedProtocol.WriteMessageBegin,
      NewMultiplexedProtocol, NewTProtocolDecorator, recording, SEPARATOR_eq]
  rw [hlog] at hsent
  simp only [List.cons.injEq, Op.WriteMessageBegin.injEq, and_true] at hsent
  obtain ⟨hname, htype, hseq⟩ := hsent
  subst hname htype hseq
  rw [Process_split p inp out s s1 S F CALL seq hread (Or.inl rfl) hS hF, hreg]

theorem roundtrip_tagged_call_witness :
    colon ∉ ascii "Calculator"
    ∧ ascii "add" ≠ []
    ∧ ((NewMultiplexedProtocol
          (NewTProtocolDecorator (recording (headerProtocol ([], 0, 0, none))))
          (ascii "Calculator")).call (.WriteMessageBegin (ascii "add") CALL 1) (0, [])).2.2
        = [.WriteMessageBegin (ascii "Calculator:add") CALL 1]
    ∧ headerProtocol (ascii "Calculator:add", CALL, 1, none) .ReadMessageBegin 0
        = ((ascii "Calculator:add", CALL, 1, none), 1)
    ∧ (singleService (ascii "Calculator")
          (expectingProcessor (ascii "add") CALL 1 : TProcessor Nat)).processors.index
            (ascii "Calculator")
        = some (expectingProcessor (ascii "add") CALL 1)
    ∧ ((singleService (ascii "Calculator") (expectingProcessor (ascii "add") CALL 1)).Process
          (headerProtocol (ascii "Calculator:add", CALL, 1, none))
          (headerProtocol ([], 0, 0, none)) 0
        = some (expectingProcessor (ascii "add") CALL 1
            (StoredMessageProtocol.mk
              (NewTProtocolDecorator (headerProtocol (ascii "Calculator:add", CALL, 1, none)))
              (ascii "add") CALL 1 none).call
            (headerProtocol ([], 0, 0, none)) 1)
      ∧ ∀ s2 : Nat,
        (StoredMessageProtocol.mk
            (NewTProtocolDecorator (headerProtocol (ascii "Calculator:add", CALL, 1, none)))
            (ascii "add") CALL 1 none).call .ReadMessageBegin s2
          = ((ascii "add", CALL, 1, none), s2)) :=
  ⟨by decide, by decide, by decide, rfl, rfl,
    roundtrip_tagged_call (headerProtocol ([], 0, 0, none)) 0
      (singleService (ascii "Calculator") (expectingProcessor (ascii "add") CALL 1))
      (headerProtocol (ascii "Calculator:add", CALL, 1, none))
      (headerProtocol ([], 0, 0, none)) 0 1 (ascii "Calculator") (ascii "add") 1
      (ascii "Calculator:add") CALL 1 (expectingProcessor (ascii "add") CALL 1)
      (by decide) (by decide) (by decide) rfl rfl⟩

/-! ## The error for a service that is not registered -/

/-- Claim C6, at the input on which the code fails it: the header
`("a%d:f", CALL, 1)`, read without error, with the service `a%d` not registered.
`Process` returns `(false, e)` in the state in which the read left the world, and
no handler runs.  The error `e` is made by `fmt.Errorf` with the service name put
into the format string, so its message is
`Service name not found: a%!d(MISSING).  Did you forget to call registerProcessor()?`,
which does not contain the service name `a%d`. -/
theorem Process_unknown_service_error_at_percent_name :
    (singleService (ascii "b") (expectingProcessor (ascii "f") CALL 1)).Process
        (headerProtocol (ascii "a%d:f", CALL, 1, none))
        (headerProtocol ([], 0, 0, none)) 0
      = some ((false, some (.errorf (ascii
          "Service name not found: a%d.  Did you forget to call registerProcessor()?"))), 1)
    ∧ GoError.Error (.errorf (ascii
          "Service name not found: a%d.  Did you forget to call registerProcessor()?"))
      = some (ascii
          "Service name not found: a%!d(MISSING).  Did you forget to call registerProcessor()?")
    ∧ strings.Contains (ascii
          "Service name not found: a%!d(MISSING).  Did you forget to call registerProcessor()?")
        (ascii "a%d") = false := by
  refine ⟨by decide, by decide, by decide⟩

/-! ## Every path of `Process` -/

theorem sliceTo_in_range (name : GoString) (i : Int) (h0 : 0 ≤ i) (h1 : i ≤ len name) :
    sliceTo name i = some (name.take i.toNat) := by
  simp [sliceTo, h0, h1]

theorem sliceFrom_in_range (name : GoString) (i : Int) (h0 : 0 ≤ i) (h1 : i ≤ len name) :
    sliceFrom name i = some (name.drop i.toNat) := by
  simp [sliceFrom, h0, h1]

/-- Every path of `Process`: it reads the header, and then either fails with a
non-nil error in the state in which the read left the world, or runs a registered
handler from that state on a `StoredMessageProtocol` over the input protocol. -/
theorem Process_outcome {σ : Type} (p : TMultiplexedProcessor σ) (inp out : TProtocol σ)
    (s : σ) :
    (∃ e : GoError,
      p.Process inp out s = some ((false, some e), (inp .ReadMessageBegin s).2))
    ∨ (∃ (P : TProcessor σ) (serviceName fn : GoString) (typeId : TMessageType) (seqid : Int),
      p.processors.index serviceName = some P ∧
      p.Process inp out s =
        some (P
          (StoredMessageProtocol.mk (NewTProtocolDecorator inp) fn typeId seqid none).call
          out (inp .ReadMessageBegin s).2)) := by
  rcases hread : inp .ReadMessageBegin s with ⟨⟨name, typeId, seqid, err⟩, s1⟩
  cases err with
  | some e => left; exact ⟨e, Process_read_failed p inp out s s1 name typeId seqid e hread⟩
  | none =>
    by_cases htype : typeId ≠ CALL ∧ typeId ≠ ONEWAY
    · left; exact ⟨_, Process_wrong_type p inp out s s1 name typeId seqid hread htype⟩
    · have htype2 : typeId = CALL ∨ typeId = ONEWAY := by
        by_cases h : typeId = CALL
        · exact Or.inl h
        · right
          by_contra h2
          exact htype ⟨h, h2⟩
      by_cases hguard : strings.Index name SEPARATOR < 0 ∨
          strings.Index name SEPARATOR ≥ len name - 1
      · left
        exact ⟨_, Process_malformed p inp out s s1 name typeId seqid hread htype2 hguard⟩
      · have h0 : 0 ≤ strings.Index name SEPARATOR := by omega
        have h1 : strings.Index name SEPARATOR ≤ len name := by omega
        have h2 : 0 ≤ strings.Index name SEPARATOR + 1 := by omega
        have h3 : strings.Index name SEPARATOR + 1 ≤ len name := by omega
        unfold TMultiplexedProcessor.Process
        rw [hread]
        simp only [ne_eq, not_true_eq_false, if_false, htype, hguard,
          sliceTo_in_range name _ h0 h1, sliceFrom_in_range name _ h2 h3]
        cases hreg : p.processors.index
            (List.take (strings.Index name SEPARATOR).toNat name) with
        | none => left; exact ⟨_, rfl⟩
        | some P => right; exact ⟨P, _, _, typeId, seqid, hreg, rfl⟩

theorem ProcessOn_eq {σ : Type} (p : TMultiplexedProcessor σ) (inp out : TProtocol σ)
    (s : σ) :
    p.ProcessOn inp out s = (p.Process inp out s).map (fun r => (p, r)) := by
  unfold TMultiplexedProcessor.ProcessOn TMultiplexedProcessor.Process
  rcases inp .ReadMessageBegin s with ⟨⟨name, typeId, seqid, err⟩, s1⟩
  simp only []
  split_ifs
  · rfl
  · rfl
  · rfl
  · cases sliceTo name (strings.Index name SEPARATOR) with
    | none => rfl
    | some serviceName =>
      dsimp only
      cases p.processors.index serviceName with
      | none => rfl
      | some P =>
        dsimp only
        cases sliceFrom name (strings.Index name SEPARATOR + 1) with
        | none => rfl
        | some fn => rfl

/-- Claim C11: on every path of `Process` the router reads the header off the input
protocol exactly once and makes no other call on the input or the output protocol.
With both protocols logging their calls, `Process` either fails with a non-nil
error, and the log has grown by the one call `ReadMessageBegin` on the input
protocol; or it runs a registered handler, and the handler starts from a log that
has grown by that one call.  `ReadMessageBegin` on the protocol given to the
handler returns the stored header and leaves the state and the log as they are: it
does not call `ReadMessageBegin` on the input protocol again. -/
theorem Process_reads_header_exactly_once {σ : Type}
    (p : TMultiplexedProcessor (σ × List (Port × Op))) (inp out : TProtocol σ) (s : σ)
    (log : List (Port × Op)) :
    ((∃ e : GoError,
        p.Process (recordingOn .input inp) (recordingOn .output out) (s, log)
          = some ((false, some e),
              ((inp .ReadMessageBegin s).2, log ++ [(Port.input, Op.ReadMessageBegin)])))
      ∨ (∃ (P : TProcessor (σ × List (Port × Op))) (serviceName fn : GoString)
          (typeId : TMessageType) (seqid : Int),
        p.processors.index serviceName = some P ∧
        p.Process (recordingOn .input inp) (recordingOn .output out) (s, log)
          = some (P
              (StoredMessageProtocol.mk (NewTProtocolDecorator (recordingOn .input inp))
                fn typeId seqid none).call
              (recordingOn .output out)
              ((inp .ReadMessageBegin s).2, log ++ [(Port.input, Op.ReadMessageBegin)]))))
    ∧ (∀ (name : GoString) (typeId : TMessageType) (seqid : Int) (err : error)
        (st : σ × List (Port × Op)),
        (StoredMessageProtocol.mk (NewTProtocolDecorator (recordingOn .input inp))
            name typeId seqid err).call .ReadMessageBegin st
          = ((name, typeId, seqid, err), st)) := by
  refine ⟨?_, fun _ _ _ _ _ => rfl⟩
  exact Process_outcome p (recordingOn .input inp) (recordingOn .output out) (s, log)

/-- Claim C12: `TProtocolDecorator` forwards every method.  For each of the methods
of `TProtocol` (every `Write…`, every `Read…`, `Skip`, `Flush`, `Transport`) and
all arguments, the call on `NewTProtocolDecorator(inner)` has the results, errors
included, and the effect of the call of the same method with the same arguments on
`inner`; on an `inner` that logs its calls the log grows by exactly that call. -/
theorem TProtocolDecorator_forwards_every_method {σ : Type} (inner : TProtocol σ)
    (op : Op) (s : σ) (log : List Op) :
    (NewTProtocolDecorator inner).call op s = inner op s
    ∧ (NewTProtocolDecorator (recording inner)).call op (s, log)
      = ((inner op s).1, (inner op s).2, log ++ [op]) := by
  constructor
  · rw [TProtocolDecorator.call_eq]
    rfl
  · rw [TProtocolDecorator.call_eq]
    rfl

/-- Claim C13: `RegisterProcessor(serviceName, processor)` inserts or replaces.  The
call returns, the registry after it maps `serviceName` to `processor` (whatever it
mapped `serviceName` to before), and every other service name to what it was mapped
to before.  The registry before the call is arbitrary: the nil map of a processor
on which nothing was registered is included. -/
theorem RegisterProcessor_inserts_or_replaces {σ : Type} (p : TMultiplexedProcessor σ)
    (serviceName : GoString) (processor : TProcessor σ) :
    ∃ p1 : TMultiplexedProcessor σ,
      p.RegisterProcessor serviceName processor = some p1
      ∧ p1.processors.index serviceName = some processor
      ∧ ∀ other : GoString, other ≠ serviceName →
          p1.processors.index other = p.processors.index other := by
  obtain ⟨m⟩ := p
  cases m with
  | none =>
    refine ⟨_, rfl, ?_, ?_⟩
    · simp [GoMap.index]
    · intro other hne
      simp [GoMap.index, hne]
  | some f =>
    refine ⟨_, rfl, ?_, ?_⟩
    · simp [GoMap.index]
    · intro other hne
      simp [GoMap.index, hne]

theorem RegisterProcessor_inserts_or_replaces_witness :
    ascii "Weather" ≠ ascii "Calculator"
    ∧ ∃ p1 : TMultiplexedProcessor Nat,
        (singleService (ascii "Weather") (expectingProcessor (ascii "get") CALL 1)
          ).RegisterProcessor (ascii "Calculator") (expectingProcessor (ascii "add") CALL 1)
          = some p1
        ∧ p1.processors.index (ascii "Calculator")
          = some (expectingProcessor (ascii "add") CALL 1)
        ∧ p1.processors.index (ascii "Weather")
          = (singleService (ascii "Weather")
              (expectingProcessor (ascii "get") CALL 1 : TProcessor Nat)
            ).processors.index (ascii "Weather") :=
  ⟨by decide,
    match RegisterProcessor_inserts_or_replaces
      (singleService (ascii "Weather") (expectingProcessor (ascii "get") CALL 1))
      (ascii "Calculator") (expectingProcessor (ascii "add") CALL 1) with
    | ⟨p1, h1, h2, h3⟩ => ⟨p1, h1, h2, h3 (ascii "Weather") (by decide)⟩⟩

/-- Claim C14: `Process` never changes the service registry.  For every registry,
every input and output protocol and every state, `Process` returns, and the
receiver after it is the receiver before it, on each outcome: read failure, wrong
message type, malformed name, unknown service, dispatch. -/
theorem Process_leaves_registry_unchanged {σ : Type} (p : TMultiplexedProcessor σ)
    (inp out : TProtocol σ) (s : σ) :
    ∃ r : ProcessResult σ,
      p.ProcessOn inp out s = some (p, r) ∧ p.Process inp out s = some r := by
  have hr : ∃ r : ProcessResult σ, p.Process inp out s = some r := by
    rcases Process_outcome p inp out s with ⟨e, h⟩ | ⟨P, sn, fn, t, q, _, h⟩
    · exact ⟨_, h⟩
    · exact ⟨_, h⟩
  obtain ⟨r, hr⟩ := hr
  refine ⟨r, ?_, hr⟩
  rw [ProcessOn_eq, hr]
  rfl

/-! ## The HTTP client -/

/-- `Flush` on a client with an address and a request buffer, by the answer of the
exchange. -/
theorem Flush_eq {ω : Type} (net : Net ω) (fromError : error → error) (p : THttpClient)
    (w : ω) (u : URL) (body : GoString)
    (hurl : p.url = some u) (hreq : p.requestBuffer = some body) :
    p.Flush net fromError w =
      match net.Post (p.client.getD http.DefaultClient) u.String
          (ascii "application/x-thrift") body w with
      | ((.error err, rest), w1) =>
        some ((fromError (some err),
          { p with client := some (p.client.getD http.DefaultClient),
                   requestBuffer := some rest }), w1)
      | ((.ok response, rest), w1) =>
        if response.StatusCode ≠ http.StatusOK then
          some ((NewTTransportException UNKNOWN_TRANSPORT_EXCEPTION
            (ascii "HTTP Response code: " ++ strconv.Itoa response.StatusCode),
            { p with client := some (p.client.getD http.DefaultClient),
                     requestBuffer := some rest }), w1)
        else
          some ((response.BodyErr,
            { p with client := some (p.client.getD http.DefaultClient),
                     requestBuffer := some rest,
                     responseBuffer := some response.Body }), w1) := by
  obtain ⟨url, client, reqB, respB, t1, t2⟩ := p
  simp only at hurl hreq
  subst hurl hreq
  cases client <;> rfl

theorem Flush_status_not_ok {ω : Type} (net : Net ω) (fromError : error → error)
    (p : THttpClient) (w w1 : ω) (u : URL) (body rest : GoString) (response : Response)
    (hurl : p.url = some u) (hreq : p.requestBuffer = some body)
    (hpost : net.Post (p.client.getD http.DefaultClient) u.String
      (ascii "application/x-thrift") body w = ((.ok response, rest), w1))
    (hstatus : response.StatusCode ≠ http.StatusOK) :
    p.Flush net fromError w =
      some ((NewTTransportException UNKNOWN_TRANSPORT_EXCEPTION
        (ascii "HTTP Response code: " ++ strconv.Itoa response.StatusCode),
        { p with client := some (p.client.getD http.DefaultClient),
                 requestBuffer := some rest }), w1) := by
  rw [Flush_eq net fromError p w u body hurl hreq, hpost]
  simp only [hstatus, ne_eq, not_false_eq_true, if_true]

theorem Flush_status_ok {ω : Type} (net : Net ω) (fromError : error → error)
    (p : THttpClient) (w w1 : ω) (u : URL) (body rest : GoString) (response : Response)
    (hurl : p.url = some u) (hreq : p.requestBuffer = some body)
    (hpost : net.Post (p.client.getD http.DefaultClient) u.String
      (ascii "application/x-thrift") body w = ((.ok response, rest), w1))
    (hstatus : response.StatusCode = http.StatusOK) :
    p.Flush net fromError w =
      some ((response.BodyErr,
        { p with client := some (p.client.getD http.DefaultClient),
                 requestBuffer := some rest,
                 responseBuffer := some response.Body }), w1) := by
  rw [Flush_eq net fromError p w u body hurl hreq, hpost]
  simp only [hstatus, ne_eq, not_true_eq_false, if_false]

theorem Flush_exchange_failed {ω : Type} (net : Net ω) (fromError : error → error)
    (p : THttpClient) (w w1 : ω) (u : URL) (body rest : GoString) (err : GoError)
    (hurl : p.url = some u) (hreq : p.requestBuffer = some body)
    (hpost : net.Post (p.client.getD http.DefaultClient) u.String
      (ascii "application/x-thrift") body w = ((.error err, rest), w1)) :
    p.Flush net fromError w =
      some ((fromError (some err),
        { p with client := some (p.client.getD http.DefaultClient),
                 requestBuffer := some rest }), w1) := by
  rw [Flush_eq net fromError p w u body hurl hreq, hpost]

theorem NewTHttpClientWithClient_eq {ω : Type} (net : Net ω) (urlstr : GoString)
    (client : Option HttpClient) (w w1 : ω) (u : URL) (response : Response)
    (hparse : net.Parse urlstr = .ok u)
    (hget : net.Get (client.getD http.DefaultClient) urlstr w = (.ok response, w1)) :
    NewTHttpClientWithClient net urlstr client w =
      if response.StatusCode ≠ http.StatusOK then
        ((none, NewTTransportException UNKNOWN_TRANSPORT_EXCEPTION
          (ascii "HTTP Response code: " ++ strconv.Itoa response.StatusCode)), w1)
      else
        match response.BodyErr with
        | some err => ((none, some err), w1)
        | none =>
          ((some { responseBuffer := some response.Body, url := some u,
                   client := some (client.getD http.DefaultClient), requestBuffer := none,
                   nsecConnectTimeout := 0, nsecReadTimeout := 0 }, none), w1) := by
  unfold NewTHttpClientWithClient
  rw [hparse]
  cases client with
  | none =>
    simp only [Option.getD] at hget
    simp only [hget, io.Copy, List.nil_append]
    split_ifs
    · rfl
    · cases response.BodyErr <;> rfl
  | some c =>
    simp only [Option.getD] at hget
    simp only [hget, io.Copy, List.nil_append]
    split_ifs
    · rfl
    · cases response.BodyErr <;> rfl

/-- Claim C15: when the POST that `Flush` performs is answered with status 500,
`Flush` returns the transport error with the message `HTTP Response code: 500`,
which carries the status code, and the response buffer after `Flush` is the
response buffer before it (absent if it was absent, the same unread bytes else). -/
theorem Flush_status_500_keeps_response_buffer {ω : Type} (net : Net ω)
    (fromError : error → error) (p : THttpClient) (w w1 : ω) (u : URL)
    (body rest : GoString) (response : Response)
    (hurl : p.url = some u) (hreq : p.requestBuffer = some body)
    (hpost : net.Post (p.client.getD http.DefaultClient) u.String
      (ascii "application/x-thrift") body w = ((.ok response, rest), w1))
    (hstatus : response.StatusCode = 500) :
    ∃ p1 : THttpClient,
      p.Flush net fromError w =
        some ((some (.transport UNKNOWN_TRANSPORT_EXCEPTION
          (ascii "HTTP Response code: 500")), p1), w1)
      ∧ p1.responseBuffer = p.responseBuffer
      ∧ strings.Contains (ascii "HTTP Response code: 500") (ascii "500") = true := by
  have hne : response.StatusCode ≠ http.StatusOK := by
    rw [hstatus]
    decide
  have hmsg : ascii "HTTP Response code: " ++ strconv.Itoa 500
      = ascii "HTTP Response code: 500" := by decide
  refine ⟨{ p with client := some (p.client.getD http.DefaultClient),
                   requestBuffer := some rest }, ?_, rfl, by decide⟩
  rw [Flush_status_not_ok net fromError p w w1 u body rest response hurl hreq hpost hne,
    hstatus, hmsg]
  rfl

theorem Flush_status_500_keeps_response_buffer_witness :
    (THttpClient.mk (some ⟨ascii "http://h/"⟩) none (some (ascii "req"))
        (some (ascii "old")) 0 0).url = some ⟨ascii "http://h/"⟩
    ∧ (THttpClient.mk (some ⟨ascii "http://h/"⟩) none (some (ascii "req"))
        (some (ascii "old")) 0 0).requestBuffer = some (ascii "req")
    ∧ (answering ⟨500, ascii "oops", none⟩).Post
        ((THttpClient.mk (some ⟨ascii "http://h/"⟩) none (some (ascii "req"))
          (some (ascii "old")) 0 0).client.getD http.DefaultClient)
        (URL.mk (ascii "http://h/")).String (ascii "application/x-thrift") (ascii "req") 0
        = ((.ok ⟨500, ascii "oops", none⟩, []), 1)
    ∧ (Response.mk 500 (ascii "oops") none).StatusCode = 500
    ∧ ∃ p1 : THttpClient,
        (THttpClient.mk (some ⟨ascii "http://h/"⟩) none (some (ascii "req"))
            (some (ascii "old")) 0 0).Flush (answering ⟨500, ascii "oops", none⟩) wrapUnknown 0
          = some ((some (.transport UNKNOWN_TRANSPORT_EXCEPTION
              (ascii "HTTP Response code: 500")), p1), 1)
        ∧ p1.responseBuffer
          = (THttpClient.mk (some ⟨ascii "http://h/"⟩) none (some (ascii "req"))
              (some (ascii "old")) 0 0).responseBuffer
        ∧ strings.Contains (ascii "HTTP Response code: 500") (ascii "500") = true :=
  ⟨rfl, rfl, rfl, rfl,
    Flush_status_500_keeps_response_buffer (answering ⟨500, ascii "oops", none⟩) wrapUnknown
      (THttpClient.mk (some ⟨ascii "http://h/"⟩) none (some (ascii "req"))
        (some (ascii "old")) 0 0)
      0 1 ⟨ascii "http://h/"⟩ (ascii "req") [] ⟨500, ascii "oops", none⟩ rfl rfl rfl rfl⟩

/-- Claim C16, as stated, fails.  Status 201 is in 200..299: `Flush` answered with
201 returns the transport error `HTTP Response code: 201` and leaves the response
buffer absent, and the GET constructor answered with 201 returns no transport and
that error.  And with status 200 and a body whose reading ends with an error, the
GET constructor returns no transport. -/
theorem http_client_fails_on_status_201 :
    (201 : Int) ∈ Set.Icc (200 : Int) 299
    ∧ (THttpClient.mk (some ⟨ascii "http://h/"⟩) none (some (ascii "req")) none 0 0).Flush
          (answering ⟨201, ascii "made", none⟩) wrapUnknown 0
        = some ((some (.transport UNKNOWN_TRANSPORT_EXCEPTION
              (ascii "HTTP Response code: 201")),
            THttpClient.mk (some ⟨ascii "http://h/"⟩) (some http.DefaultClient) (some [])
              none 0 0), 1)
    ∧ NewTHttpClientWithClient (answering ⟨201, ascii "made", none⟩) (ascii "http://h/") none 0
        = ((none, some (.transport UNKNOWN_TRANSPORT_EXCEPTION
              (ascii "HTTP Response code: 201"))), 1)
    ∧ NewTHttpClientWithClient (answering ⟨200, ascii "par", some (.other 7)⟩)
          (ascii "http://h/") none 0
        = ((none, some (.other 7)), 1) := by
  refine ⟨by constructor <;> decide, by decide, by decide, by decide⟩

/-- Claim C16, amended: the HTTP client treats status 200, and no other, as success.
When the POST of `Flush` is answered with status 200, `Flush` replaces the response
buffer with the bytes read from the body of the response and returns the error of
that reading (nil when the body was read to its end); when the GET of the GET
constructor is answered with status 200 and the body is read to its end, the
constructor returns a transport whose response buffer holds the body.  For every
other status, 201..299 included, both fail with the transport error whose message
is `HTTP Response code: ` followed by the decimal status; `Flush` then leaves the
response buffer as it was. -/
theorem http_client_success_is_status_200 {ω : Type} (net : Net ω)
    (fromError : error → error) :
    (∀ (p : THttpClient) (w w1 : ω) (u : URL) (body rest : GoString) (response : Response),
      p.url = some u → p.requestBuffer = some body →
      net.Post (p.client.getD http.DefaultClient) u.String
        (ascii "application/x-thrift") body w = ((.ok response, rest), w1) →
      (response.StatusCode = 200 →
        ∃ p1 : THttpClient,
          p.Flush net fromError w = some ((response.BodyErr, p1), w1)
          ∧ p1.responseBuffer = some response.Body)
      ∧ (response.StatusCode ≠ 200 →
        ∃ p1 : THttpClient,
          p.Flush net fromError w =
            some ((some (.transport UNKNOWN_TRANSPORT_EXCEPTION
              (ascii "HTTP Response code: " ++ strconv.Itoa response.StatusCode)), p1), w1)
          ∧ p1.responseBuffer = p.responseBuffer))
    ∧ (∀ (urlstr : GoString) (client : Option HttpClient) (w w1 : ω) (u : URL)
        (response : Response),
      net.Parse urlstr = .ok u →
      net.Get (client.getD http.DefaultClient) urlstr w = (.ok response, w1) →
      (response.StatusCode = 200 → response.BodyErr = none →
        ∃ t : THttpClient,
          NewTHttpClientWithClient net urlstr client w = ((some t, none), w1)
          ∧ t.responseBuffer = some response.Body)
      ∧ (response.StatusCode ≠ 200 →
        NewTHttpClientWithClient net urlstr client w =
          ((none, some (.transport UNKNOWN_TRANSPORT_EXCEPTION
            (ascii "HTTP Response code: " ++ strconv.Itoa response.StatusCode))), w1))) := by
  constructor
  · intro p w w1 u body rest response hurl hreq hpost
    constructor
    · intro hstatus
      exact ⟨_, Flush_status_ok net fromError p w w1 u body rest response hurl hreq hpost
        hstatus, rfl⟩
    · intro hstatus
      exact ⟨_, Flush_status_not_ok net fromError p w w1 u body rest response hurl hreq hpost
        hstatus, rfl⟩
  · intro urlstr client w w1 u response hparse hget
    rw [NewTHttpClientWithClient_eq net urlstr client w w1 u response hparse hget]
    constructor
    · intro hstatus herr
      have h : ¬ response.StatusCode ≠ http.StatusOK := by
        rw [hstatus]
        decide
      simp only [h, if_false, herr]
      exact ⟨_, rfl, rfl⟩
    · intro hstatus
      have h : response.StatusCode ≠ http.StatusOK := hstatus
      simp only [h, ne_eq, not_false_eq_true, if_true]
      rfl

theorem http_client_success_is_status_200_witness :
    (THttpClient.mk (some ⟨ascii "http://h/"⟩) none (some (ascii "req")) none 0 0).url
        = some ⟨ascii "http://h/"⟩
    ∧ (THttpClient.mk (some ⟨ascii "http://h/"⟩) none (some (ascii "req")) none 0 0
        ).requestBuffer = some (ascii "req")
    ∧ (answering ⟨200, ascii "reply", none⟩).Post
        ((THttpClient.mk (some ⟨ascii "http://h/"⟩) none (some (ascii "req")) none 0 0
          ).client.getD http.DefaultClient)
        (URL.mk (ascii "http://h/")).String (ascii "application/x-thrift") (ascii "req") 0
        = ((.ok ⟨200, ascii "reply", none⟩, []), 1)
    ∧ (Response.mk 200 (ascii "reply") none).StatusCode = 200
    ∧ ∃ p1 : THttpClient,
        (THttpClient.mk (some ⟨ascii "http://h/"⟩) none (some (ascii "req")) none 0 0).Flush
            (answering ⟨200, ascii "reply", none⟩) wrapUnknown 0
          = some (((Response.mk 200 (ascii "reply") none).BodyErr, p1), 1)
        ∧ p1.responseBuffer = some (Response.mk 200 (ascii "reply") none).Body :=
  ⟨rfl, rfl, rfl, rfl,
    ((http_client_success_is_status_200 (answering ⟨200, ascii "reply", none⟩) wrapUnknown).1
      (THttpClient.mk (some ⟨ascii "http://h/"⟩) none (some (ascii "req")) none 0 0)
      0 1 ⟨ascii "http://h/"⟩ (ascii "req") [] ⟨200, ascii "reply", none⟩ rfl rfl rfl).1 rfl⟩

/-- Claim C17, as stated, fails for a client made by the GET constructor.  The GET
constructor, answered with status 200 and a body read to its end, returns a client
that has no request buffer, and `Write` on that client does not return: it calls a
method of `bytes.Buffer` through a nil pointer. -/
theorem Write_panics_on_get_client :
    NewTHttpClient (answering ⟨200, ascii "reply", none⟩) (ascii "http://h/") 0
        = ((some (THttpClient.mk (some ⟨ascii "http://h/"⟩) (some http.DefaultClient) none
              (some (ascii "reply")) 0 0), none), 1)
    ∧ (THttpClient.mk (some ⟨ascii "http://h/"⟩) (some http.DefaultClient) none
          (some (ascii "reply")) 0 0).Write (ascii "req") = none := by
  refine ⟨by decide, by decide⟩

/-- Claim C17, amended: for every `THttpClient` that has a request buffer, as every
client made by the POST constructor has, and every byte sequence `buf`, `Write(buf)`
appends `buf` to the end of the request buffer, returns `(len(buf), nil)` and
leaves every other field, the response buffer among them, as it was.  `Write` is a
function of the client and of `buf` alone: there is no HTTP exchange in it. -/
theorem Write_appends_to_request_buffer :
    (∀ (p : THttpClient) (b buf : GoString), p.requestBuffer = some b →
      p.Write buf = some ((len buf, none), { p with requestBuffer := some (b ++ buf) })
      ∧ ({ p with requestBuffer := some (b ++ buf) } : THttpClient).responseBuffer
          = p.responseBuffer)
    ∧ (∀ {ω : Type} (net : Net ω) (urlstr : GoString) (client : Option HttpClient)
        (t : THttpClient),
      NewTHttpPostClientWithClient net urlstr client = (some t, none) →
      t.requestBuffer = some []
      ∧ ∀ buf : GoString,
          t.Write buf = some ((len buf, none), { t with requestBuffer := some buf })) := by
  constructor
  · intro p b buf hreq
    refine ⟨?_, rfl⟩
    unfold THttpClient.Write
    rw [hreq]
  · intro ω net urlstr client t hnew
    unfold NewTHttpPostClientWithClient at hnew
    cases hparse : net.Parse urlstr with
    | error err =>
      rw [hparse] at hnew
      simp at hnew
    | ok u =>
      rw [hparse] at hnew
      simp only [Prod.mk.injEq, Option.some.injEq, and_true] at hnew
      subst hnew
      refine ⟨rfl, fun buf => ?_⟩
      unfold THttpClient.Write
      simp

theorem Write_appends_to_request_buffer_witness :
    (THttpClient.mk (some ⟨ascii "http://h/"⟩) none (some (ascii "ab")) none 0 0).requestBuffer
        = some (ascii "ab")
    ∧ (THttpClient.mk (some ⟨ascii "http://h/"⟩) none (some (ascii "ab")) none 0 0).Write
          (ascii "cd")
        = some ((len (ascii "cd"), none),
            { THttpClient.mk (some ⟨ascii "http://h/"⟩) none (some (ascii "ab")) none 0 0 with
              requestBuffer := some (ascii "ab" ++ ascii "cd") })
    ∧ ({ THttpClient.mk (some ⟨ascii "http://h/"⟩) none (some (ascii "ab")) none 0 0 with
          requestBuffer := some (ascii "ab" ++ ascii "cd") } : THttpClient).responseBuffer
        = (THttpClient.mk (some ⟨ascii "http://h/"⟩) none (some (ascii "ab")) none 0 0
            ).responseBuffer :=
  ⟨rfl,
    Write_appends_to_request_buffer.1
      (THttpClient.mk (some ⟨ascii "http://h/"⟩) none (some (ascii "ab")) none 0 0)
      (ascii "ab") (ascii "cd") rfl⟩

/-- Claim C18, as stated, fails for a `Flush` that fails while it copies the body.
On a client made by the POST constructor, `Flush` is answered with status 200 and a
body whose reading ends with an error after the bytes `par`: `Flush` returns that
error, so it has not succeeded, yet the response buffer is there and holds `par`.
`Read` then returns `(3, nil)` with these bytes, not the error of type NOT_OPEN. -/
theorem Read_after_flush_failed_in_copy :
    NewTHttpPostClient (answering ⟨200, ascii "par", some (.other 7)⟩) (ascii "http://h/")
        = (some (THttpClient.mk (some ⟨ascii "http://h/"⟩) none (some []) none 0 0), none)
    ∧ (THttpClient.mk (some ⟨ascii "http://h/"⟩) none (some []) none 0 0).Flush
          (answering ⟨200, ascii "par", some (.other 7)⟩) wrapUnknown 0
        = some ((some (.other 7),
            THttpClient.mk (some ⟨ascii "http://h/"⟩) (some http.DefaultClient) (some [])
              (some (ascii "par")) 0 0), 1)
    ∧ (THttpClient.mk (some ⟨ascii "http://h/"⟩) (some http.DefaultClient) (some [])
          (some (ascii "par")) 0 0).Read wrapUnknown 8
        = (((3, none), ascii "par"),
            THttpClient.mk (some ⟨ascii "http://h/"⟩) (some http.DefaultClient) (some [])
              (some []) 0 0) := by
  refine ⟨by decide, by decide, by decide⟩

/-- Claim C18, amended: `Read` returns `(0, error)` with the transport error of type
NOT_OPEN, and leaves the client as it is, whenever the response buffer is absent.
It is absent on a client as the POST constructor returns it, and a `Flush` that
starts without a response buffer and fails on the exchange, or is answered with a
status other than 200, leaves it absent.  When the response buffer is there,
`Read` reads from it: the results are those of the read of the buffer (the error
through `NewTTransportExceptionFromError`), the response buffer keeps the bytes left
unread, and every other field, the request buffer among them, stays as it was.
`Read` is a function of the client and of the length of `buf` alone: there is no
HTTP exchange in it. -/
theorem Read_not_open_or_from_response_buffer (fromError : error → error) :
    (∀ (p : THttpClient) (n : Nat), p.responseBuffer = none →
      p.Read fromError n =
        (((0, some (.transport NOT_OPEN (ascii "Response buffer is empty, no request."))),
          []), p))
    ∧ (∀ {ω : Type} (net : Net ω) (urlstr : GoString) (client : Option HttpClient)
        (t : THttpClient),
      NewTHttpPostClientWithClient net urlstr client = (some t, none) →
      t.responseBuffer = none)
    ∧ (∀ {ω : Type} (net : Net ω) (p : THttpClient) (w w1 : ω) (u : URL)
        (body rest : GoString) (outcome : Except GoError Response),
      p.responseBuffer = none → p.url = some u → p.requestBuffer = some body →
      net.Post (p.client.getD http.DefaultClient) u.String
        (ascii "application/x-thrift") body w = ((outcome, rest), w1) →
      (∀ response : Response, outcome = .ok response → response.StatusCode ≠ 200) →
      ∃ (e : error) (p1 : THttpClient),
        p.Flush net fromError w = some ((e, p1), w1) ∧ p1.responseBuffer = none)
    ∧ (∀ (p : THttpClient) (b : GoString) (n : Nat), p.responseBuffer = some b →
      p.Read fromError n =
        ((((bytes.Buffer.Read b n).1.1, fromError (bytes.Buffer.Read b n).1.2),
          (bytes.Buffer.Read b n).2.1),
          { p with responseBuffer := some (bytes.Buffer.Read b n).2.2 })
      ∧ ({ p with responseBuffer := some (bytes.Buffer.Read b n).2.2 } : THttpClient
          ).requestBuffer = p.requestBuffer) := by
  refine ⟨?_, ?_, ?_, ?_⟩
  · intro p n hresp
    unfold THttpClient.Read
    rw [hresp]
    rfl
  · intro ω net urlstr client t hnew
    unfold NewTHttpPostClientWithClient at hnew
    cases hparse : net.Parse urlstr with
    | error err =>
      rw [hparse] at hnew
      simp at hnew
    | ok u =>
      rw [hparse] at hnew
      simp only [Prod.mk.injEq, Option.some.injEq, and_true] at hnew
      subst hnew
      rfl
  · intro ω net p w w1 u body rest outcome hresp hurl hreq hpost hbad
    cases outcome with
    | error e =>
      exact ⟨_, _, Flush_exchange_failed net fromError p w w1 u body rest e hurl hreq hpost,
        hresp⟩
    | ok response =>
      exact ⟨_, _, Flush_status_not_ok net fromError p w w1 u body rest response
        hurl hreq hpost (hbad response rfl), hresp⟩
  · intro p b n hresp
    refine ⟨?_, rfl⟩
    unfold THttpClient.Read
    rw [hresp]

theorem Read_not_open_or_from_response_buffer_witness :
    (THttpClient.mk (some ⟨ascii "http://h/"⟩) none (some (ascii "req")) none 0 0
        ).responseBuffer = none
    ∧ (THttpClient.mk (some ⟨ascii "http://h/"⟩) none (some (ascii "req")) none 0 0).Read
          wrapUnknown 8
        = (((0, some (.transport NOT_OPEN (ascii "Response buffer is empty, no request."))),
            []),
          THttpClient.mk (some ⟨ascii "http://h/"⟩) none (some (ascii "req")) none 0 0) :=
  ⟨rfl,
    (Read_not_open_or_from_response_buffer wrapUnknown).1
      (THttpClient.mk (some ⟨ascii "http://h/"⟩) none (some (ascii "req")) none 0 0) 8 rfl⟩

/-- Claim C19: `IsOpen` and `Peek` return true exactly when the response buffer or
the request buffer is there; `Open` returns no error and the client as it was;
`Close` returns no error and a client without response buffer, with the request
buffer, the URL and every other field as they were. -/
theorem Open_Close_IsOpen_Peek (p : THttpClient) :
    (p.IsOpen = true ↔ (p.responseBuffer ≠ none ∨ p.requestBuffer ≠ none))
    ∧ (p.Peek = true ↔ (p.responseBuffer ≠ none ∨ p.requestBuffer ≠ none))
    ∧ p.Open = (none, p)
    ∧ p.Close = (none, { p with responseBuffer := none })
    ∧ (p.Close).2.responseBuffer = none
    ∧ (p.Close).2.requestBuffer = p.requestBuffer
    ∧ (p.Close).2.url = p.url
    ∧ (p.Close).2.client = p.client := by
  refine ⟨?_, ?_, rfl, rfl, rfl, rfl, rfl, rfl⟩
  · simp [THttpClient.IsOpen]
  · simp [THttpClient.Peek, THttpClient.IsOpen]

/-! ## The HTTP server -/

/-- Claim C20: `Handle` on an OPTIONS request leaves the server and the state of the
world as they were, whatever the factories of the server are: it calls neither the
processor factory nor a processor.  With CORS disabled its one call on the response
writer is `WriteHeader(403)`: no header is set.  With CORS enabled it adds
`Access-Control-Allow-Origin: *` and `Access-Control-Allow-Methods: POST`, then
adds `Access-Control-Allow-Headers` with the value of the header
`Access-Control-Request-Headers` of the request exactly when that value is not
empty, and it writes no status. -/
theorem Handle_OPTIONS_answers_preflight {σ : Type} (Close : TTransport → σ → error × σ)
    (srv : THttpServer σ) (w : ResponseWriter) (req : Request) (s : σ)
    (hmethod : req.Method = ascii "OPTIONS") :
    (srv.cors = false →
      srv.Handle Close w req s = ((srv, w ++ [.WriteHeader 403]), s))
    ∧ (srv.cors = true → req.HeaderGet (ascii "Access-Control-Request-Headers") ≠ [] →
      srv.Handle Close w req s =
        ((srv, w ++ [.HeaderAdd (ascii "Access-Control-Allow-Origin") (ascii "*"),
                     .HeaderAdd (ascii "Access-Control-Allow-Methods") (ascii "POST"),
                     .HeaderAdd (ascii "Access-Control-Allow-Headers")
                       (req.HeaderGet (ascii "Access-Control-Request-Headers"))]), s))
    ∧ (srv.cors = true → req.HeaderGet (ascii "Access-Control-Request-Headers") = [] →
      srv.Handle Close w req s =
        ((srv, w ++ [.HeaderAdd (ascii "Access-Control-Allow-Origin") (ascii "*"),
                     .HeaderAdd (ascii "Access-Control-Allow-Methods") (ascii "POST")]), s)) := by
  refine ⟨?_, ?_, ?_⟩
  · intro hcors
    simp [THttpServer.Handle, hmethod, hcors, http.StatusForbidden]
  · intro hcors hv
    simp [THttpServer.Handle, hmethod, hcors, hv]
  · intro hcors hv
    simp [THttpServer.Handle, hmethod, hcors, hv]

theorem Handle_OPTIONS_answers_preflight_witness :
    (requestWith (ascii "OPTIONS") (ascii "X-Token")).Method = ascii "OPTIONS"
    ∧ (countingServer true).cors = true
    ∧ (requestWith (ascii "OPTIONS") (ascii "X-Token")).HeaderGet
        (ascii "Access-Control-Request-Headers") ≠ []
    ∧ (countingServer true).Handle (fun _ n => (none, n + 1)) []
          (requestWith (ascii "OPTIONS") (ascii "X-Token")) 0
        = ((countingServer true,
            [] ++ [.HeaderAdd (ascii "Access-Control-Allow-Origin") (ascii "*"),
                   .HeaderAdd (ascii "Access-Control-Allow-Methods") (ascii "POST"),
                   .HeaderAdd (ascii "Access-Control-Allow-Headers")
                     ((requestWith (ascii "OPTIONS") (ascii "X-Token")).HeaderGet
                       (ascii "Access-Control-Request-Headers"))]), 0) :=
  ⟨rfl, rfl, by decide,
    (Handle_OPTIONS_answers_preflight (fun _ n => (none, n + 1)) (countingServer true) []
      (requestWith (ascii "OPTIONS") (ascii "X-Token")) 0 rfl).2.1 rfl (by decide)⟩

/-! ## The error that the server keeps -/

/-- `Handle` on a request that is not an OPTIONS request, by the results of the
factories and of the processor. -/
theorem Handle_serves {σ : Type} (Close : TTransport → σ → error × σ)
    (srv : THttpServer σ) (w : ResponseWriter) (req : Request) (s s1 s2 s3 s4 s5 s6 : σ)
    (processor : TProcessor σ) (inputTransport outputTransport : Option TTransport)
    (inputProtocol outputProtocol : TProtocol σ) (ok : Bool) (err : error)
    (hmethod : req.Method ≠ ascii "OPTIONS")
    (hprocessor : srv.processorFactory ⟨req.Body, w⟩ s = (processor, s1))
    (hin : srv.inputTransportFactory ⟨req.Body, w⟩ s1 = (inputTransport, s2))
    (hout : srv.outputTransportFactory ⟨req.Body, w⟩ s2 = (outputTransport, s3))
    (hinp : srv.inputProtocolFactory inputTransport s3 = (inputProtocol, s4))
    (houtp : srv.outputProtocolFactory outputTransport s4 = (outputProtocol, s5))
    (hprocess : processor inputProtocol outputProtocol s5 = ((ok, err), s6)) :
    srv.Handle Close w req s =
      (((match err with
          | some (.transport typeId _) =>
            if typeId = END_OF_FILE then { srv with LastError := none }
            else { srv with LastError := err }
          | _ => { srv with LastError := err }), w),
        deferredClose Close inputTransport (deferredClose Close outputTransport s6)) := by
  unfold THttpServer.Handle
  simp only [hmethod, if_false, hprocessor, hin, hout, hinp, houtp, hprocess]
  cases err with
  | none => rfl
  | some e =>
    cases e with
    | errorf f => rfl
    | other i => rfl
    | transport t m =>
      by_cases h : t = END_OF_FILE
      · simp [h]
      · simp [h]

/-- Claim C21: after `Handle` has served a request that is not an OPTIONS request,
`LastError` is nil when the error that the processor returned is a transport
exception of type END_OF_FILE, and is the error that the processor returned in
every other case: nil when the processor returned no error.  What `LastError` held
before the request does not matter. -/
theorem Handle_sets_LastError {σ : Type} (Close : TTransport → σ → error × σ)
    (srv : THttpServer σ) (w : ResponseWriter) (req : Request) (s s1 s2 s3 s4 s5 s6 : σ)
    (processor : TProcessor σ) (inputTransport outputTransport : Option TTransport)
    (inputProtocol outputProtocol : TProtocol σ) (ok : Bool) (err : error)
    (hmethod : req.Method ≠ ascii "OPTIONS")
    (hprocessor : srv.processorFactory ⟨req.Body, w⟩ s = (processor, s1))
    (hin : srv.inputTransportFactory ⟨req.Body, w⟩ s1 = (inputTransport, s2))
    (hout : srv.outputTransportFactory ⟨req.Body, w⟩ s2 = (outputTransport, s3))
    (hinp : srv.inputProtocolFactory inputTransport s3 = (inputProtocol, s4))
    (houtp : srv.outputProtocolFactory outputTransport s4 = (outputProtocol, s5))
    (hprocess : processor inputProtocol outputProtocol s5 = ((ok, err), s6)) :
    ((∃ msg : GoString, err = some (.transport END_OF_FILE msg)) →
      (srv.Handle Close w req s).1.1.LastError = none)
    ∧ ((∀ msg : GoString, err ≠ some (.transport END_OF_FILE msg)) →
      (srv.Handle Close w req s).1.1.LastError = err)
    ∧ (err = none → (srv.Handle Close w req s).1.1.LastError = none) := by
  rw [Handle_serves Close srv w req s s1 s2 s3 s4 s5 s6 processor inputTransport
    outputTransport inputProtocol outputProtocol ok err hmethod hprocessor hin hout hinp
    houtp hprocess]
  refine ⟨?_, ?_, ?_⟩
  · rintro ⟨msg, rfl⟩
    simp
  · intro hne
    cases err with
    | none => rfl
    | some e =>
      cases e with
      | errorf f => rfl
      | other i => rfl
      | transport t m =>
        have h : t ≠ END_OF_FILE := by
          intro h
          exact hne m (by rw [h])
        simp [h]
  · rintro rfl
    rfl

theorem Handle_sets_LastError_witness :
    (requestWith (ascii "POST") []).Method ≠ ascii "OPTIONS"
    ∧ (∃ msg : GoString,
        (some (.transport END_OF_FILE (ascii "EOF")) : error)
          = some (.transport END_OF_FILE msg))
    ∧ ((serverReturning (some (.other 9)) (some (.transport END_OF_FILE (ascii "EOF")))).Handle
          (fun _ n => (none, n + 1)) [] (requestWith (ascii "POST") []) 0).1.1.LastError
        = none :=
  ⟨by decide, ⟨ascii "EOF", rfl⟩,
    (Handle_sets_LastError (fun _ n => (none, n + 1))
      (serverReturning (some (.other 9)) (some (.transport END_OF_FILE (ascii "EOF"))))
      [] (requestWith (ascii "POST") []) 0 1 2 3 4 5 6
      (fun _ _ k => ((false, some (.transport END_OF_FILE (ascii "EOF"))), k + 1))
      (some 1) (some 2) (headerProtocol ([], 0, 0, none)) (headerProtocol ([], 0, 0, none))
      false (some (.transport END_OF_FILE (ascii "EOF")))
      (by decide) rfl rfl rfl rfl rfl rfl).1 ⟨ascii "EOF", rfl⟩⟩

/-! ## The tag and the split -/

/-- What `strings.Index(name, SEPARATOR)` finds: nothing, in a name without `:`,
or the length of the text before the first `:`. -/
theorem Index_sep_spec (name : GoString) :
    (colon ∉ name ∧ strings.Index name SEPARATOR = -1)
    ∨ ∃ A rest : GoString,
        name = A ++ colon :: rest ∧ colon ∉ A
          ∧ strings.Index name SEPARATOR = (A.length : Int) := by
  by_cases h : colon ∈ name
  · right
    obtain ⟨A, rest, hname, hA⟩ := List.eq_append_cons_of_mem h
    refine ⟨A, rest, hname, hA, ?_⟩
    rw [hname]
    exact Index_sep_append A rest hA
  · left
    exact ⟨h, Index_sep_of_not_mem name h⟩

/-- The split of `Process` on a tagged name: the slices are the service name and
the function name. -/
theorem split_of_tagged (S F : GoString) (hS : colon ∉ S) :
    sliceTo (S ++ SEPARATOR ++ F) (strings.Index (S ++ SEPARATOR ++ F) SEPARATOR) = some S
    ∧ sliceFrom (S ++ SEPARATOR ++ F) (strings.Index (S ++ SEPARATOR ++ F) SEPARATOR + 1)
        = some F := by
  have hname : S ++ SEPARATOR ++ F = S ++ 58 :: F := by
    simp [SEPARATOR_eq]
  rw [hname, Index_sep_append S F hS]
  constructor
  · simp [sliceTo, len]
    omega
  · have h1 : ((S.length : Int) + 1).toNat = S.length + 1 := by omega
    have h2 : List.drop (S.length + 1) (S ++ 58 :: F) = F := by
      rw [List.drop_append]
      rfl
    simp only [sliceFrom, len, List.length_append, List.length_cons, h1, h2]
    simp
    omega

/-- Claim C22: tagging is injective on service names without `:`.  For service names
`S1`, `S2` without `:` and function names `F1`, `F2`, if `S1 + ":" + F1` and
`S2 + ":" + F2`, the names that `WriteMessageBegin` hands on, are equal, then
`S1 = S2` and `F1 = F2`; and the split of `Process` (the slices at the index of
the first `:`) gives back `S1` and `F1`. -/
theorem tagging_is_injective (S1 S2 F1 F2 : GoString)
    (h1 : colon ∉ S1) (h2 : colon ∉ S2)
    (h : S1 ++ SEPARATOR ++ F1 = S2 ++ SEPARATOR ++ F2) :
    (S1 = S2 ∧ F1 = F2)
    ∧ sliceTo (S1 ++ SEPARATOR ++ F1) (strings.Index (S1 ++ SEPARATOR ++ F1) SEPARATOR)
        = some S1
    ∧ sliceFrom (S1 ++ SEPARATOR ++ F1)
        (strings.Index (S1 ++ SEPARATOR ++ F1) SEPARATOR + 1) = some F1 := by
  refine ⟨?_, split_of_tagged S1 F1 h1⟩
  have hs1 := (split_of_tagged S1 F1 h1).1
  have hs2 := (split_of_tagged S2 F2 h2).1
  have hf1 := (split_of_tagged S1 F1 h1).2
  have hf2 := (split_of_tagged S2 F2 h2).2
  rw [h] at hs1 hf1
  rw [hs2] at hs1
  rw [hf2] at hf1
  exact ⟨(Option.some.inj hs1).symm, (Option.some.inj hf1).symm⟩

theorem tagging_is_injective_witness :
    colon ∉ ascii "Calculator"
    ∧ colon ∉ ascii "Calculator"
    ∧ ascii "Calculator" ++ SEPARATOR ++ ascii "add:now"
        = ascii "Calculator" ++ SEPARATOR ++ ascii "add:now"
    ∧ ((ascii "Calculator" = ascii "Calculator" ∧ ascii "add:now" = ascii "add:now")
      ∧ sliceTo (ascii "Calculator" ++ SEPARATOR ++ ascii "add:now")
          (strings.Index (ascii "Calculator" ++ SEPARATOR ++ ascii "add:now") SEPARATOR)
          = some (ascii "Calculator")
      ∧ sliceFrom (ascii "Calculator" ++ SEPARATOR ++ ascii "add:now")
          (strings.Index (ascii "Calculator" ++ SEPARATOR ++ ascii "add:now") SEPARATOR + 1)
          = some (ascii "add:now")) :=
  ⟨by decide, by decide, rfl,
    tagging_is_injective (ascii "Calculator") (ascii "Calculator") (ascii "add:now")
      (ascii "add:now") (by decide) (by decide) rfl⟩

/-- Claim C23: the split of `Process` loses nothing.  For a name that passes the
guard of `Process`, that is, whose first `:` is at an index `i` with
`0 <= i < len(name) - 1` (`i` is `strings.Index(name, SEPARATOR)`), both slice
expressions are within bounds, the service name `name[:i]` has no `:`, the function
name `name[i+1:]` is not empty, and `name[:i] + ":" + name[i+1:]` is `name`. -/
theorem split_is_lossless (name : GoString)
    (hguard : ¬ (strings.Index name SEPARATOR < 0 ∨
      strings.Index name SEPARATOR ≥ len name - 1)) :
    ∃ serviceName standardName : GoString,
      sliceTo name (strings.Index name SEPARATOR) = some serviceName
      ∧ sliceFrom name (strings.Index name SEPARATOR + 1) = some standardName
      ∧ colon ∉ serviceName
      ∧ standardName ≠ []
      ∧ serviceName ++ SEPARATOR ++ standardName = name
      ∧ name[(strings.Index name SEPARATOR).toNat]? = some colon
      ∧ ∀ j : Nat, (j : Int) < strings.Index name SEPARATOR → name[j]? ≠ some colon := by
  rcases Index_sep_spec name with ⟨_, hidx⟩ | ⟨A, rest, hname, hA, hidx⟩
  · rw [hidx] at hguard
    exact absurd (Or.inl (by decide)) hguard
  · have hrest : rest ≠ [] := by
      intro h
      apply hguard
      right
      rw [hidx, hname, h]
      simp [len]
    have htag : A ++ SEPARATOR ++ rest = name := by
      rw [hname]
      simp [SEPARATOR_eq]
    have hsplit := split_of_tagged A rest hA
    rw [htag] at hsplit
    refine ⟨A, rest, hsplit.1, hsplit.2, hA, hrest, htag, ?_, ?_⟩
    · rw [hidx, hname, Int.toNat_ofNat, List.getElem?_append_right (Nat.le_refl _)]
      simp
    · intro j hj
      rw [hidx] at hj
      have hj2 : j < A.length := by omega
      rw [hname, List.getElem?_append_left hj2, List.getElem?_eq_getElem hj2]
      intro h
      apply hA
      rw [← Option.some.inj h]
      exact List.getElem_mem hj2

theorem split_is_lossless_witness :
    ¬ (strings.Index (ascii "Calculator:add") SEPARATOR < 0 ∨
        strings.Index (ascii "Calculator:add") SEPARATOR ≥ len (ascii "Calculator:add") - 1)
    ∧ ∃ serviceName standardName : GoString,
        sliceTo (ascii "Calculator:add") (strings.Index (ascii "Calculator:add") SEPARATOR)
          = some serviceName
        ∧ sliceFrom (ascii "Calculator:add")
            (strings.Index (ascii "Calculator:add") SEPARATOR + 1) = some standardName
        ∧ colon ∉ serviceName
        ∧ standardName ≠ []
        ∧ serviceName ++ SEPARATOR ++ standardName = ascii "Calculator:add"
        ∧ (ascii "Calculator:add")[(strings.Index (ascii "Calculator:add") SEPARATOR).toNat]?
            = some colon
        ∧ ∀ j : Nat, (j : Int) < strings.Index (ascii "Calculator:add") SEPARATOR →
            (ascii "Calculator:add")[j]? ≠ some colon :=
  ⟨by decide, split_is_lossless (ascii "Calculator:add") (by decide)⟩

/-! ## Reading the stored header again -/

/-- Claim C24: the stored header can be read any number of times.  `n` calls of
`ReadMessageBegin`, one after the other, on a `StoredMessageProtocol` each return
the stored `(name, typeId, seqid, err)`; after them the receiver, and so the
stored tuple, is what it was, and so is the state of the world: the underlying
protocol has not been called (one that logs its calls has the log it had).  The
call through the method table is the same read. -/
theorem stored_header_is_not_one_shot {σ : Type} (p : StoredMessageProtocol σ) (n : Nat)
    (s : σ) (inner : TProtocol σ) (name : GoString) (typeId : TMessageType) (seqid : Int)
    (err : error) (log : List Op) :
    readMessageBeginTimes n p s
      = (List.replicate n (p.name, p.typeId, p.seqid, p.err), p, s)
    ∧ (p.ReadMessageBeginOn s).2 = p.call .ReadMessageBegin s
    ∧ readMessageBeginTimes n
        (StoredMessageProtocol.mk (NewTProtocolDecorator (recording inner))
          name typeId seqid err) (s, log)
      = (List.replicate n (name, typeId, seqid, err),
          StoredMessageProtocol.mk (NewTProtocolDecorator (recording inner))
            name typeId seqid err,
          (s, log)) := by
  have key : ∀ {τ : Type} (q : StoredMessageProtocol τ) (k : Nat) (t : τ),
      readMessageBeginTimes k q t = (List.replicate k (q.name, q.typeId, q.seqid, q.err), q, t) := by
    intro τ q k t
    induction k with
    | zero => rfl
    | succ k ih =>
      simp only [readMessageBeginTimes, StoredMessageProtocol.ReadMessageBeginOn, ih,
        List.replicate_succ]
  exact ⟨key p n s, rfl, key _ n (s, log)⟩

end Thrift
